import Mathlib

/-!
Agreement governance core of anax: embedding and verified properties.

Shallow embedding of `governance/governance.go`, `events/events.go` and the validation of
`cli/kube_deployment/kube_deployment.go`.

* Go structs are Lean structures with the source's field names; a Go pointer is an
  `Option` where the worker passes nil or dereferences a pointer it received from
  elsewhere (deployments, the launch context of a torrent message, the base contracts).
* A function that talks to the outside world returns a `Run`: the list of externally
  visible effects it performed, in order, and how it ended (normal return with a value, a
  Go run-time panic, or an exhausted iteration budget for the unbounded retry loops).
* Code of other packages (persistence, exchange, citizenscientist, policy, config,
  ethblockchain) is not part of the embedded sources; what those calls return is supplied
  by an `Env`, so every theorem holds for every behaviour of these collaborators.
* `uint64` and `int64` values are `Nat` and `Int` with explicit wrap-around.
-/

namespace Anax

/-! ## events/events.go -/

/-- Go type `events.EventId` (a string). -/
abbrev EventId := String

/-- Go struct `events.Event`. -/
structure Event where
  Id : EventId
deriving DecidableEq, Repr

def NOOP : EventId := "NOOP"
def AGREEMENT_ACCEPTED : EventId := "AGREEMENT_ACCEPTED"
def AGREEMENT_ENDED : EventId := "AGREEMENT_ENDED"
def AGREEMENT_CREATED : EventId := "AGREEMENT_CREATED"
def AGREEMENT_REGISTERED : EventId := "AGREEMENT_REGISTERED"
def RECEIVED_MSG : EventId := "RECEIVED_MSG"
def SUBSCRIBE_TO : EventId := "SUBSCRIBE_TO"
def TORRENT_FAILURE : EventId := "TORRENT_FAILURE"
def TORRENT_FETCHED : EventId := "TORRENT_FETCHED"
def EXECUTION_FAILED : EventId := "EXECUTION_FAILED"
def EXECUTION_BEGUN : EventId := "EXECUTION_BEGUN"
def PATTERN_DESTROYED : EventId := "PATTERN_DESTROYED"
def CONTAINER_MAINTAIN : EventId := "CONTAINER_MAINTAIN"
def NEW_POLICY : EventId := "NEW_POLICY"
def NEW_AB_POLICY : EventId := "NEW_AB_POLICY"
def NEW_DEVICE_REG : EventId := "NEW_DEVICE_REG"
def NEW_AGBOT_REG : EventId := "NEW_AGBOT_REG"
def AGREEMENT_REACHED : EventId := "AGREEMENT_REACHED"

/-- Go type `events.EndContractCause` (a string). -/
abbrev EndContractCause := String

def AG_TERMINATED : EndContractCause := "AG_TERMINATED"
def AG_ERROR : EndContractCause := "AG_ERROR"
def AG_FULFILLED : EndContractCause := "AG_FULFILLED"

/-- Go type `persistence.ServiceConfig`; the type is declared outside the embedded sources
and the governance code never looks inside it, so it is kept as an uninterpreted string. -/
abbrev ServiceConfig := String

/-- Go type `map[string]persistence.ServiceConfig`, as an association list. A value of Go
type `*map[string]persistence.ServiceConfig` is an `Option Deployment` (nil is `none`). -/
abbrev Deployment := List (String × ServiceConfig)

/-- Go struct `events.AgreementLaunchContext`. `Configure` points to a type of another
library and is kept as an uninterpreted optional string. -/
structure AgreementLaunchContext where
  AgreementProtocol : String
  AgreementId : String
  Configure : Option String
  ConfigureRaw : List Nat
  EnvironmentAdditions : Option (List (String × String))
deriving DecidableEq, Repr

/-- Go struct `events.PolicyCreatedMessage`. -/
structure PolicyCreatedMessage where
  event : Event
  fileName : String
deriving DecidableEq, Repr

/-- Go struct `events.ABPolicyCreatedMessage`. -/
structure ABPolicyCreatedMessage where
  event : Event
  fileName : String
deriving DecidableEq, Repr

/-- Go struct `events.EdgeRegisteredExchangeMessage`. -/
structure EdgeRegisteredExchangeMessage where
  event : Event
  id : String
  token : String
deriving DecidableEq, Repr

/-- Go method `(*EdgeRegisteredExchangeMessage).ID`. -/
def EdgeRegisteredExchangeMessage.ID (e : EdgeRegisteredExchangeMessage) : String := e.id

/-- Go method `(*EdgeRegisteredExchangeMessage).Token`. -/
def EdgeRegisteredExchangeMessage.Token (e : EdgeRegisteredExchangeMessage) : String := e.token

/-- Go function `events.NewEdgeRegisteredExchangeMessage`. -/
def NewEdgeRegisteredExchangeMessage (evId : EventId) (id : String) (token : String) :
    EdgeRegisteredExchangeMessage :=
  { event := { Id := evId }, id := id, token := token }

/-- Go struct `events.AgreementReachedMessage`. -/
structure AgreementReachedMessage where
  event : Event
  launchContext : Option AgreementLaunchContext
deriving DecidableEq, Repr

/-- Go struct `events.WhisperSubscribeToMessage`. -/
structure WhisperSubscribeToMessage where
  event : Event
  topic : String
deriving DecidableEq, Repr

/-- Go struct `events.WhisperReceivedMessage`. -/
structure WhisperReceivedMessage where
  event : Event
  payload : String
  topics : List String
  «from» : String
deriving DecidableEq, Repr

/-- Go struct `events.TorrentMessage`. The launch context is a pointer that the
constructor stores as given, so it may be nil. -/
structure TorrentMessage where
  event : Event
  ImageFiles : List String
  AgreementLaunchContext : Option AgreementLaunchContext
deriving DecidableEq, Repr

/-- Go method `(*TorrentMessage).Event`. -/
def TorrentMessage.Event (b : TorrentMessage) : Event := b.event

/-- Go function `events.NewTorrentMessage`. -/
def NewTorrentMessage (id : EventId) (imageFiles : List String)
    (agreementLaunchContext : Option AgreementLaunchContext) : TorrentMessage :=
  { event := { Id := id }, ImageFiles := imageFiles,
    AgreementLaunchContext := agreementLaunchContext }

/-- Go struct `events.GovernanceMaintenanceMessage`. -/
structure GovernanceMaintenanceMessage where
  event : Event
  AgreementProtocol : String
  AgreementId : String
  Deployment : Option Deployment
deriving DecidableEq, Repr

/-- Go method `(*GovernanceMaintenanceMessage).Event`. -/
def GovernanceMaintenanceMessage.Event (m : GovernanceMaintenanceMessage) : Event := m.event

/-- Go struct `events.GovernanceCancelationMessage`: it embeds a
`GovernanceMaintenanceMessage` and a value of the interface `Message`. The embedded
interface value is represented by the event its own `Event()` would return; it is nil
(`none`) in every message built by `NewGovernanceCancelationMessage`. -/
structure GovernanceCancelationMessage where
  GovernanceMaintenanceMessage : GovernanceMaintenanceMessage
  Message : Option Event
  Cause : EndContractCause
deriving DecidableEq, Repr

/-- Go method `(*GovernanceCancelationMessage).Event`: `return m.event`, where `event` is
the field promoted from the embedded `GovernanceMaintenanceMessage`. -/
def GovernanceCancelationMessage.Event (m : GovernanceCancelationMessage) : Event :=
  m.GovernanceMaintenanceMessage.event

/-- Go function `events.NewGovernanceMaintenanceMessage`. -/
def NewGovernanceMaintenanceMessage (id : EventId) (protocol : String) (agreementId : String)
    (deployment : Option Deployment) : GovernanceMaintenanceMessage :=
  { event := { Id := id }, AgreementProtocol := protocol, AgreementId := agreementId,
    Deployment := deployment }

/-- Go function `events.NewGovernanceCancelationMessage`. -/
def NewGovernanceCancelationMessage (id : EventId) (cause : EndContractCause)
    (protocol : String) (agreementId : String) (deployment : Option Deployment) :
    GovernanceCancelationMessage :=
  let govMaint := NewGovernanceMaintenanceMessage id protocol agreementId deployment
  { GovernanceMaintenanceMessage := govMaint, Message := none, Cause := cause }

/-- Go struct `events.ContainerMessage`. -/
structure ContainerMessage where
  event : Event
  AgreementProtocol : String
  AgreementId : String
  Deployment : Option Deployment
deriving DecidableEq, Repr

/-- Go method `(ContainerMessage).Event`. -/
def ContainerMessage.Event (b : ContainerMessage) : Event := b.event

/-- Go function `events.NewContainerMessage`. -/
def NewContainerMessage (id : EventId) (protocol : String) (agreementId : String)
    (deployment : Option Deployment) : ContainerMessage :=
  { event := { Id := id }, AgreementProtocol := protocol, AgreementId := agreementId,
    Deployment := deployment }

/-- Go struct `events.ApiAgreementCancelationMessage`. -/
structure ApiAgreementCancelationMessage where
  event : Event
  AgreementProtocol : String
  AgreementId : String
  Deployment : Option Deployment
  Cause : EndContractCause
deriving DecidableEq, Repr

/-- Go method `(*ApiAgreementCancelationMessage).Event`. -/
def ApiAgreementCancelationMessage.Event (m : ApiAgreementCancelationMessage) : Event := m.event

/-- Go function `events.NewApiAgreementCancelationMessage`. -/
def NewApiAgreementCancelationMessage (id : EventId) (cause : EndContractCause)
    (protocol : String) (agreementId : String) (deployment : Option Deployment) :
    ApiAgreementCancelationMessage :=
  { event := { Id := id }, AgreementProtocol := protocol, AgreementId := agreementId,
    Deployment := deployment, Cause := cause }

/-- Go interface `events.Message` as the sum of its dynamic types: one constructor for the
pointer to each struct of `events.go` (the form in which the `New...Message` constructors
return them and in which the type switch of `NewEvent` names them), and `OtherMessage` for
a value of any further type implementing the interface, known only by its event. -/
inductive Message where
  | PolicyCreatedMessage (m : PolicyCreatedMessage)
  | ABPolicyCreatedMessage (m : ABPolicyCreatedMessage)
  | EdgeRegisteredExchangeMessage (m : EdgeRegisteredExchangeMessage)
  | AgreementReachedMessage (m : AgreementReachedMessage)
  | WhisperSubscribeToMessage (m : WhisperSubscribeToMessage)
  | WhisperReceivedMessage (m : WhisperReceivedMessage)
  | TorrentMessage (m : TorrentMessage)
  | GovernanceMaintenanceMessage (m : GovernanceMaintenanceMessage)
  | GovernanceCancelationMessage (m : GovernanceCancelationMessage)
  | ContainerMessage (m : ContainerMessage)
  | ApiAgreementCancelationMessage (m : ApiAgreementCancelationMessage)
  | OtherMessage (event : Event)
deriving DecidableEq, Repr

/-- Go method `Event()` of the interface `events.Message`, dispatched on the dynamic type. -/
def Message.Event : Message → Event
  | .PolicyCreatedMessage m => m.event
  | .ABPolicyCreatedMessage m => m.event
  | .EdgeRegisteredExchangeMessage m => m.event
  | .AgreementReachedMessage m => m.event
  | .WhisperSubscribeToMessage m => m.event
  | .WhisperReceivedMessage m => m.event
  | .TorrentMessage m => m.Event
  | .GovernanceMaintenanceMessage m => m.Event
  | .GovernanceCancelationMessage m => m.Event
  | .ContainerMessage m => m.Event
  | .ApiAgreementCancelationMessage m => m.Event
  | .OtherMessage event => event

/-! ## governance/governance.go: constants and commands -/

def MAX_CONTRACT_UNCONFIGURED_TIME_M : Nat := 20
def MAX_CONTRACT_PRELAUNCH_TIME_M : Nat := 60
def MAX_MICROPAYMENT_UNPAID_RUN_DURATION_M : Nat := 60
def MAX_AGREEMENT_ACCEPTANCE_WAIT_TIME_M : Nat := 20

def CANCEL_NOT_FINALIZED_TIMEOUT : Nat := 200
def CANCEL_POLICY_CHANGED : Nat := 201
def CANCEL_TORRENT_FAILURE : Nat := 202
def CANCEL_CONTAINER_FAILURE : Nat := 203
def CANCEL_NOT_EXECUTED_TIMEOUT : Nat := 204
def CANCEL_USER_REQUESTED : Nat := 205

/-- Go struct `governance.StartGovernExecutionCommand`. -/
structure StartGovernExecutionCommand where
  AgreementId : String
  AgreementProtocol : String
  Deployment : Option Deployment
deriving DecidableEq, Repr

/-- Go struct `governance.CleanupExecutionCommand`. -/
structure CleanupExecutionCommand where
  AgreementProtocol : String
  AgreementId : String
  Reason : Nat
  Deployment : Option Deployment
deriving DecidableEq, Repr

/-- Go struct `governance.DeviceRegisteredCommand`. -/
structure DeviceRegisteredCommand where
  Id : String
  Token : String
deriving DecidableEq, Repr

/-- Go interface `worker.Command` as the sum of the three command types of the worker. -/
inductive Command where
  | DeviceRegisteredCommand (c : DeviceRegisteredCommand)
  | StartGovernExecutionCommand (c : StartGovernExecutionCommand)
  | CleanupExecutionCommand (c : CleanupExecutionCommand)
deriving DecidableEq, Repr

/-- Go method `NewStartGovernExecutionCommand`. -/
def NewStartGovernExecutionCommand (deployment : Option Deployment) (protocol : String)
    (agreementId : String) : StartGovernExecutionCommand :=
  { AgreementId := agreementId, AgreementProtocol := protocol, Deployment := deployment }

/-- Go method `NewCleanupExecutionCommand`. -/
def NewCleanupExecutionCommand (protocol : String) (agreementId : String) (reason : Nat)
    (deployment : Option Deployment) : CleanupExecutionCommand :=
  { AgreementProtocol := protocol, AgreementId := agreementId, Reason := reason,
    Deployment := deployment }

/-- Go function `NewDeviceRegisteredCommand`. -/
def NewDeviceRegisteredCommand (id : String) (token : String) : DeviceRegisteredCommand :=
  { Id := id, Token := token }

/-! ## Records, collaborators and the worker -/

/-- Go struct `persistence.EstablishedAgreement`, with the fields the governance worker
reads (the struct is declared in the persistence package). Times are `uint64` Unix
seconds. -/
structure EstablishedAgreement where
  CurrentAgreementId : String
  AgreementProtocol : String
  CounterPartyAddress : String
  Proposal : String
  ProposalSig : String
  AgreementCreationTime : Nat
  AgreementAcceptedTime : Nat
  AgreementFinalizedTime : Nat
  AgreementExecutionStartTime : Nat
  AgreementTerminated : Nat
  CurrentDeployment : Deployment
deriving DecidableEq, Repr

/-- The anonymous function returned by `notYetFinalFilter` in `governAgreements`. -/
def notYetFinalFilter (a : EstablishedAgreement) : Bool :=
  a.AgreementCreationTime != 0 && a.AgreementAcceptedTime != 0 && a.AgreementTerminated == 0
    && a.CounterPartyAddress != ""

/-- Go type `persistence.EAFilter`, restricted to the two filters the worker passes to
`FindEstablishedAgreements`: its own `notYetFinalFilter()` and `persistence.IdEAFilter`. -/
inductive EAFilter where
  | notYetFinalFilter
  | IdEAFilter (agreementId : String)
deriving DecidableEq, Repr

/-- A non-nil Go `error`, known by its message. A Go value of type `error` is an
`Option GoError`; nil is `none`. -/
structure GoError where
  msg : String
deriving DecidableEq, Repr

/-- Go struct `exchange.PutAgreementState`, the body of the registry PUT. -/
structure PutAgreementState where
  Microservice : String
  State : String
deriving DecidableEq, Repr

/-- Go struct `ethblockchain.BaseContracts`: only the `Agreements` contract handle is used. -/
structure BaseContracts where
  Agreements : String
deriving DecidableEq, Repr

/-- The part of a `citizenscientist.Proposal` that the worker reads. -/
structure Proposal where
  TsAndCs : String
deriving DecidableEq, Repr

/-- Go struct `policy.APISpecification`; only `SpecRef` is read. -/
structure APISpecification where
  SpecRef : String
deriving DecidableEq, Repr

/-- Go struct `policy.Policy`; only `APISpecs` is read. -/
structure Policy where
  APISpecs : List APISpecification
deriving DecidableEq, Repr

/-- The `Edge` section of `config.HorizonConfig`; `AgreementTimeoutS` is a `uint64`. -/
structure EdgeConfig where
  GethURL : String
  ExchangeURL : String
  AgreementTimeoutS : Nat
deriving DecidableEq, Repr

/-- Go struct `config.HorizonConfig`. -/
structure HorizonConfig where
  Edge : EdgeConfig
deriving DecidableEq, Repr

/-- Go struct `governance.GovernanceWorker`. The two channels of the embedded
`worker.Worker` appear as effects (see `Effect`), the database handle as the persistence
entries of `Env`. `bc` is nil until `governAgreements` has initialised the contracts. -/
structure GovernanceWorker where
  Config : HorizonConfig
  bc : Option BaseContracts
  deviceId : String
  deviceToken : String
deriving DecidableEq, Repr

/-- What the code outside the embedded sources answers when the worker calls it. Every
entry is a parameter: the theorems below quantify over all of them.

* `PROTOCOL_NAME` is the constant `citizenscientist.PROTOCOL_NAME`.
* `Unix` is the value of `time.Now().Unix()` (an `int64`) during the step considered.
* The persistence entries take the arguments in the order of the Go calls
  (agreement id, then protocol) and give the returned `error`.
* `VerifyAgreementRecorded` gives the Go pair `(recorded, err)`.
* `InvokeExchange method url n` gives the Go pair `(err, tpErr)` that the n-th call
  (counted from 0) of `exchange.InvokeExchange` returns within one retry loop. -/
structure Env where
  PROTOCOL_NAME : String
  Unix : Int
  AgreementStateFinalized : String → String → Option GoError
  AgreementStateExecutionStarted : String → String → Option Deployment → Option GoError
  AgreementStateTerminated : String → String → Option GoError
  DeleteEstablishedAgreement : String → String → Option GoError
  FindEstablishedAgreements : String → List EAFilter → Except GoError (List EstablishedAgreement)
  VerifyAgreementRecorded : String → String → String → String → Bool × Option GoError
  ValidateProposal : String → Except GoError Proposal
  DemarshalPolicy : String → Except GoError Policy
  TerminateAgreement : String → String → Nat → String → Option GoError
  InvokeExchange : String → String → Nat → Option GoError × Option GoError

/-- The externally visible steps of the worker, with the arguments of the Go call. -/
inductive Effect where
  /-- Send on the command channel, `w.Commands <- c`. -/
  | sendCommand (c : Command)
  /-- Send on the message channel, `w.Messages() <- m`. -/
  | sendMessage (m : Message)
  | AgreementStateFinalized (agreementId : String) (protocol : String)
  | AgreementStateExecutionStarted (agreementId : String) (protocol : String)
      (deployment : Option Deployment)
  | AgreementStateTerminated (agreementId : String) (protocol : String)
  | DeleteEstablishedAgreement (agreementId : String) (protocol : String)
  | FindEstablishedAgreements (protocol : String) (filters : List EAFilter)
  | VerifyAgreementRecorded (agreementId : String) (counterParty : String)
      (proposalSig : String) (agreements : String)
  | TerminateAgreement (counterParty : String) (agreementId : String) (reason : Nat)
      (agreements : String)
  /-- One call of `exchange.InvokeExchange` with the given method, URL and request body. -/
  | InvokeExchange (method : String) (url : String) (body : Option PutAgreementState)
  /-- Call of `time.Sleep` for the given number of seconds. -/
  | Sleep (seconds : Nat)
deriving DecidableEq, Repr

/-- How a piece of Go code ends: it returns a value, it panics, or (in this embedding) the
iteration budget given to an unbounded `for` loop is used up. -/
inductive Outcome (α : Type) where
  | returned (a : α)
  | panicked (reason : String)
  | outOfFuel
deriving DecidableEq, Repr

/-- The run of a piece of Go code: the effects performed, in order, and how it ended. -/
structure Run (α : Type) where
  trace : List Effect
  outcome : Outcome α
deriving DecidableEq, Repr

/-- Sequencing: the second part runs only if the first returned; traces are appended. -/
def Run.bind {α β : Type} (r : Run α) (f : α → Run β) : Run β :=
  match r.outcome with
  | .returned a => { trace := r.trace ++ (f a).trace, outcome := (f a).outcome }
  | .panicked reason => { trace := r.trace, outcome := .panicked reason }
  | .outOfFuel => { trace := r.trace, outcome := .outOfFuel }

instance : Monad Run where
  pure a := { trace := [], outcome := .returned a }
  bind := Run.bind

/-- Perform one effect and continue with the value the collaborator answers. -/
def Run.call {α : Type} (e : Effect) (answer : α) : Run α :=
  { trace := [e], outcome := .returned answer }

/-- A Go run-time panic. -/
def Run.panic {α : Type} (reason : String) : Run α :=
  { trace := [], outcome := .panicked reason }

/-- The Go method call `err.Error()` on a value of type `error`: a run-time panic when the
value is nil. -/
def GoError.Error (err : Option GoError) : Run String :=
  match err with
  | some e => pure e.msg
  | none => Run.panic "invalid memory address or nil pointer dereference"

/-- Element 0 of a Go slice: a run-time panic when the slice is empty. -/
def index0 {α : Type} (xs : List α) : Run α :=
  match xs with
  | x :: _ => pure x
  | [] => Run.panic "index out of range"

/-- The selector `w.bc.Agreements`: a run-time panic when `w.bc` is nil. -/
def GovernanceWorker.bcAgreements (w : GovernanceWorker) : Run String :=
  match w.bc with
  | some bc => pure bc.Agreements
  | none => Run.panic "invalid memory address or nil pointer dereference"

/-- Conversion `uint64(x)` of an `int64`. -/
def uint64 (x : Int) : Nat := (x % 2 ^ 64).toNat

/-- The `int64` that a mathematical integer wraps to. -/
def wrapInt64 (x : Int) : Int := (x + 2 ^ 63) % 2 ^ 64 - 2 ^ 63

/-- Conversion `int64(n)` of a `uint64`. -/
def int64 (n : Nat) : Int := wrapInt64 (n : Int)

/-! ## governance/governance.go: the worker -/

/-- Go method `(*GovernanceWorker).NewEvent`: the type switch on the incoming message and,
inside three of its cases, the switch on the event id. -/
def NewEvent (_w : GovernanceWorker) (incoming : Message) : Run Unit :=
  match incoming with
  | .EdgeRegisteredExchangeMessage msg =>
      Run.call (.sendCommand (.DeviceRegisteredCommand (NewDeviceRegisteredCommand msg.ID msg.Token))) ()
  | .ContainerMessage msg =>
      if msg.Event.Id = EXECUTION_BEGUN then
        let cmd := NewStartGovernExecutionCommand msg.Deployment msg.AgreementProtocol msg.AgreementId
        Run.call (.sendCommand (.StartGovernExecutionCommand cmd)) ()
      else if msg.Event.Id = EXECUTION_FAILED then
        let cmd := NewCleanupExecutionCommand msg.AgreementProtocol msg.AgreementId
          CANCEL_CONTAINER_FAILURE msg.Deployment
        Run.call (.sendCommand (.CleanupExecutionCommand cmd)) ()
      else pure ()
  | .TorrentMessage msg =>
      if msg.Event.Id = TORRENT_FAILURE then
        match msg.AgreementLaunchContext with
        | some lc =>
            let cmd := NewCleanupExecutionCommand lc.AgreementProtocol lc.AgreementId
              CANCEL_TORRENT_FAILURE none
            Run.call (.sendCommand (.CleanupExecutionCommand cmd)) ()
        | none => Run.panic "invalid memory address or nil pointer dereference"
      else pure ()
  | .ApiAgreementCancelationMessage msg =>
      if msg.Event.Id = AGREEMENT_ENDED then
        let cmd := NewCleanupExecutionCommand msg.AgreementProtocol msg.AgreementId
          CANCEL_USER_REQUESTED msg.Deployment
        Run.call (.sendCommand (.CleanupExecutionCommand cmd)) ()
      else pure ()
  | _ => pure ()

/-- The `for` loop of `recordProducerAgreementState`; `fuel` bounds the number of
iterations and `attempt` counts the calls of `InvokeExchange` already made. In the branch
`tpErr != nil` the source evaluates `err.Error()` for the log line, with the `err` that the
first test found to be nil, before it sleeps and continues. -/
def recordProducerAgreementStateLoop (env : Env) (targetURL : String) («as» : PutAgreementState) :
    Nat → Nat → Run (Option GoError)
  | 0, _ => { trace := [], outcome := .outOfFuel }
  | fuel + 1, attempt => do
      let (err, tpErr) ← Run.call (.InvokeExchange "PUT" targetURL (some «as»))
        (env.InvokeExchange "PUT" targetURL attempt)
      if err ≠ none then
        pure err
      else if tpErr ≠ none then do
        let _ ← GoError.Error err
        Run.call (.Sleep 10) ()
        recordProducerAgreementStateLoop env targetURL «as» fuel (attempt + 1)
      else
        pure none

/-- Go function `recordProducerAgreementState`. -/
def recordProducerAgreementState (env : Env) (fuel : Nat) (url : String) (deviceId : String)
    (token : String) (agreementId : String) (microservice : String) (state : String) :
    Run (Option GoError) :=
  let «as» : PutAgreementState := { Microservice := microservice, State := state }
  let targetURL := url ++ "devices/" ++ deviceId ++ "/agreements/" ++ agreementId ++ "?token=" ++ token
  recordProducerAgreementStateLoop env targetURL «as» fuel 0

/-- The `for` loop of `deleteProducerAgreement`; see `recordProducerAgreementStateLoop`. -/
def deleteProducerAgreementLoop (env : Env) (targetURL : String) :
    Nat → Nat → Run (Option GoError)
  | 0, _ => { trace := [], outcome := .outOfFuel }
  | fuel + 1, attempt => do
      let (err, tpErr) ← Run.call (.InvokeExchange "DELETE" targetURL none)
        (env.InvokeExchange "DELETE" targetURL attempt)
      if err ≠ none then
        pure err
      else if tpErr ≠ none then do
        let _ ← GoError.Error err
        Run.call (.Sleep 10) ()
        deleteProducerAgreementLoop env targetURL fuel (attempt + 1)
      else
        pure none

/-- Go function `deleteProducerAgreement`. -/
def deleteProducerAgreement (env : Env) (fuel : Nat) (url : String) (deviceId : String)
    (token : String) (agreementId : String) : Run (Option GoError) :=
  let targetURL := url ++ "devices/" ++ deviceId ++ "/agreements/" ++ agreementId ++ "?token=" ++ token
  deleteProducerAgreementLoop env targetURL fuel 0

/-- Go method `(*GovernanceWorker).cancelAgreement`. Every returned error is only logged.
`fuel` is the iteration budget of the retry loop in `deleteProducerAgreement`. -/
def cancelAgreement (w : GovernanceWorker) (env : Env) (fuel : Nat) (agreementId : String)
    (agreementProtocol : String) (reason : Nat) : Run Unit := do
  -- Update the database
  let _ ← Run.call (.AgreementStateTerminated agreementId agreementProtocol)
    (env.AgreementStateTerminated agreementId agreementProtocol)
  -- Delete from the exchange
  let _ ← deleteProducerAgreement env fuel w.Config.Edge.ExchangeURL w.deviceId w.deviceToken
    agreementId
  -- get CounterPartyAddress
  let found ← Run.call (.FindEstablishedAgreements agreementProtocol [.IdEAFilter agreementId])
    (env.FindEstablishedAgreements agreementProtocol [.IdEAFilter agreementId])
  let counterparty ←
    match found with
    | .error _ => pure ""
    | .ok establishedAgreements => do
        let first ← index0 establishedAgreements
        pure first.CounterPartyAddress
  -- Cancel on the blockchain
  let agreements ← w.bcAgreements
  let _ ← Run.call (.TerminateAgreement counterparty agreementId reason agreements)
    (env.TerminateAgreement counterparty agreementId reason agreements)
  -- Delete from the database
  let _ ← Run.call (.DeleteEstablishedAgreement agreementId agreementProtocol)
    (env.DeleteEstablishedAgreement agreementId agreementProtocol)
  pure ()

/-- The body of the loop `for _, ag := range establishedAgreements` in `governAgreements`:
what one reconciler pass does for one record returned by the active filter. -/
def governAgreement (w : GovernanceWorker) (env : Env) (fuel : Nat) (ag : EstablishedAgreement) :
    Run Unit :=
  if ag.AgreementFinalizedTime = 0 then do
    -- Verify that the blockchain update has occurred. If not, cancel the agreement.
    let agreements ← w.bcAgreements
    let (recorded, err) ←
      Run.call (.VerifyAgreementRecorded ag.CurrentAgreementId ag.CounterPartyAddress ag.ProposalSig agreements)
        (env.VerifyAgreementRecorded ag.CurrentAgreementId ag.CounterPartyAddress ag.ProposalSig agreements)
    if err ≠ none then
      pure ()
    else if recorded then do
      -- Update state in the database
      let _ ← Run.call (.AgreementStateFinalized ag.CurrentAgreementId env.PROTOCOL_NAME)
        (env.AgreementStateFinalized ag.CurrentAgreementId env.PROTOCOL_NAME)
      -- Update state in exchange
      match env.ValidateProposal ag.Proposal with
      | .error _ => pure ()
      | .ok proposal =>
        match env.DemarshalPolicy proposal.TsAndCs with
        | .error _ => pure ()
        | .ok tcPolicy => do
            let spec ← index0 tcPolicy.APISpecs
            let _ ← recordProducerAgreementState env fuel w.Config.Edge.ExchangeURL w.deviceId
              w.deviceToken ag.CurrentAgreementId spec.SpecRef "Finalized Agreement"
            pure ()
    else
      let now := uint64 env.Unix
      if (ag.AgreementCreationTime + w.Config.Edge.AgreementTimeoutS) % 2 ^ 64 < now then do
        -- Start timing out the agreement
        cancelAgreement w env fuel ag.CurrentAgreementId ag.AgreementProtocol
          CANCEL_NOT_FINALIZED_TIMEOUT
        -- cleanup workloads
        Run.call (.sendMessage (.GovernanceCancelationMessage
          (NewGovernanceCancelationMessage AGREEMENT_ENDED AG_TERMINATED ag.AgreementProtocol
            ag.CurrentAgreementId (some ag.CurrentDeployment)))) ()
      else pure ()
  else
    if ag.AgreementExecutionStartTime ≠ 0 then
      -- current contract, ensure workloads still running
      Run.call (.sendMessage (.GovernanceMaintenanceMessage
        (NewGovernanceMaintenanceMessage CONTAINER_MAINTAIN ag.AgreementProtocol
          ag.CurrentAgreementId (some ag.CurrentDeployment)))) ()
    else
      -- workload not started yet and in an agreement ...
      if wrapInt64 (int64 ag.AgreementAcceptedTime + (MAX_CONTRACT_PRELAUNCH_TIME_M * 60 : Nat)) < env.Unix then do
        cancelAgreement w env fuel ag.CurrentAgreementId ag.AgreementProtocol
          CANCEL_NOT_EXECUTED_TIMEOUT
        -- cleanup workloads if needed
        Run.call (.sendMessage (.GovernanceCancelationMessage
          (NewGovernanceCancelationMessage AGREEMENT_ENDED AG_TERMINATED ag.AgreementProtocol
            ag.CurrentAgreementId (some ag.CurrentDeployment)))) ()
      else pure ()

/-- The `range` loop of `governAgreements` over the records found. -/
def governEach (w : GovernanceWorker) (env : Env) (fuel : Nat) : List EstablishedAgreement → Run Unit
  | [] => pure ()
  | ag :: rest => do
      governAgreement w env fuel ag
      governEach w env fuel rest

/-- One iteration of the endless `for` loop of `governAgreements` (one reconciler pass):
query the active records of `PROTOCOL_NAME`, govern each, sleep 10 seconds. -/
def governAgreementsPass (w : GovernanceWorker) (env : Env) (fuel : Nat) : Run Unit := do
  let found ← Run.call (.FindEstablishedAgreements env.PROTOCOL_NAME [.notYetFinalFilter])
    (env.FindEstablishedAgreements env.PROTOCOL_NAME [.notYetFinalFilter])
  match found with
  | .error _ => pure ()
  | .ok establishedAgreements => governEach w env fuel establishedAgreements
  Run.call (.Sleep 10) ()

/-- One iteration of the command loop of `(*GovernanceWorker).start`, after the receive
`command := <-w.Commands`: the type switch on the command. The result is the worker with
the fields the command assigned. -/
def processCommand (w : GovernanceWorker) (env : Env) (fuel : Nat) (command : Command) :
    Run GovernanceWorker :=
  match command with
  | .DeviceRegisteredCommand cmd =>
      pure { w with deviceId := cmd.Id, deviceToken := cmd.Token }
  | .StartGovernExecutionCommand cmd => do
      let _ ← Run.call (.AgreementStateExecutionStarted cmd.AgreementId cmd.AgreementProtocol cmd.Deployment)
        (env.AgreementStateExecutionStarted cmd.AgreementId cmd.AgreementProtocol cmd.Deployment)
      pure w
  | .CleanupExecutionCommand cmd => do
      cancelAgreement w env fuel cmd.AgreementId cmd.AgreementProtocol cmd.Reason
      -- send the event to the container in case it has started the workloads.
      Run.call (.sendMessage (.GovernanceCancelationMessage
        (NewGovernanceCancelationMessage AGREEMENT_ENDED AG_TERMINATED cmd.AgreementProtocol
          cmd.AgreementId cmd.Deployment))) ()
      pure w

/-! ## Concrete workers, environments and records used to evaluate the code -/

/-- Modelled from the spec: `persistence.IdEAFilter(agreementId)` selects the record with
that agreement id (the persistence package is outside the embedded sources). Used only to
build the sample environments below. -/
def EAFilter.accepts : EAFilter → EstablishedAgreement → Bool
  | .notYetFinalFilter, a => Anax.notYetFinalFilter a
  | .IdEAFilter agreementId, a => a.CurrentAgreementId == agreementId

/-- Modelled from the spec: the persistence operations over a fixed content `store` of the
database, with collaborators that otherwise all succeed. The clock reads `unix`, the ledger
answers `recorded` to every verification, the registry answers its n-th call with
`registry n`. Updating a record that is not in the store is an error; a query returns the
records of the protocol that pass all filters, possibly none. -/
def storeEnv (store : List EstablishedAgreement) (unix : Int) (recorded : Bool)
    (registry : Nat → Option GoError × Option GoError) : Env :=
  let update : String → String → Option GoError := fun agreementId protocol =>
    if store.any (fun a => a.CurrentAgreementId == agreementId && a.AgreementProtocol == protocol)
    then none else some { msg := "no record" }
  { PROTOCOL_NAME := "Citizen Scientist"
    Unix := unix
    AgreementStateFinalized := update
    AgreementStateExecutionStarted := fun agreementId protocol _ => update agreementId protocol
    AgreementStateTerminated := update
    DeleteEstablishedAgreement := fun _ _ => none
    FindEstablishedAgreements := fun protocol filters =>
      .ok (store.filter fun a => a.AgreementProtocol == protocol && filters.all fun f => f.accepts a)
    VerifyAgreementRecorded := fun _ _ _ _ => (recorded, none)
    ValidateProposal := fun _ => .ok { TsAndCs := "policy" }
    DemarshalPolicy := fun _ => .ok { APISpecs := [{ SpecRef := "svc/x" }] }
    TerminateAgreement := fun _ _ _ _ => none
    InvokeExchange := fun _ _ n => registry n }

/-- A worker whose contracts are initialised and whose device is registered. -/
def sampleWorker : GovernanceWorker :=
  { Config := { Edge := { GethURL := "http://geth", ExchangeURL := "https://exchange/v1/",
                          AgreementTimeoutS := 3600 } }
    bc := some { Agreements := "0xC0" }
    deviceId := "dev"
    deviceToken := "tok" }

/-- A worker configured with an agreement timeout close to the largest `uint64`. -/
def hugeTimeoutWorker : GovernanceWorker :=
  { sampleWorker with
    Config := { Edge := { GethURL := "http://geth", ExchangeURL := "https://exchange/v1/",
                          AgreementTimeoutS := 2 ^ 64 - 100 } } }

/-- The record of scenario S1: accepted, not yet finalized. -/
def agreementS1 : EstablishedAgreement :=
  { CurrentAgreementId := "a1", AgreementProtocol := "Citizen Scientist",
    CounterPartyAddress := "0xAA", Proposal := "proposal", ProposalSig := "sig",
    AgreementCreationTime := 100, AgreementAcceptedTime := 110,
    AgreementFinalizedTime := 0, AgreementExecutionStartTime := 0, AgreementTerminated := 0,
    CurrentDeployment := [] }

/-- The record of scenario S2 at time 1700000000: created 7200 s and accepted 7100 s
earlier, not finalized. -/
def agreementS2 : EstablishedAgreement :=
  { CurrentAgreementId := "a2", AgreementProtocol := "Citizen Scientist",
    CounterPartyAddress := "0xBB", Proposal := "proposal", ProposalSig := "sig",
    AgreementCreationTime := 1699992800, AgreementAcceptedTime := 1699992900,
    AgreementFinalizedTime := 0, AgreementExecutionStartTime := 0, AgreementTerminated := 0,
    CurrentDeployment := [("svc", "cfg")] }

/-- The record of scenario S3 at time 1700000000: accepted 3700 s and finalized 3600 s
earlier, not executing. -/
def agreementS3 : EstablishedAgreement :=
  { CurrentAgreementId := "a3", AgreementProtocol := "Citizen Scientist",
    CounterPartyAddress := "0xCC", Proposal := "proposal", ProposalSig := "sig",
    AgreementCreationTime := 1699996200, AgreementAcceptedTime := 1699996300,
    AgreementFinalizedTime := 1699996400, AgreementExecutionStartTime := 0,
    AgreementTerminated := 0, CurrentDeployment := [("svc", "cfg")] }

/-- A finalized record whose workloads have been running for a very long time. -/
def agreementRunning : EstablishedAgreement :=
  { CurrentAgreementId := "a5", AgreementProtocol := "Citizen Scientist",
    CounterPartyAddress := "0xDD", Proposal := "proposal", ProposalSig := "sig",
    AgreementCreationTime := 100, AgreementAcceptedTime := 110,
    AgreementFinalizedTime := 120, AgreementExecutionStartTime := 130,
    AgreementTerminated := 0, CurrentDeployment := [("svc", "cfg")] }

/-- An active, not finalized record whose creation time lies 5 s after 1700000000. -/
def agreementFutureCreated : EstablishedAgreement :=
  { agreementS2 with CurrentAgreementId := "a6", AgreementCreationTime := 1700000005,
                     AgreementAcceptedTime := 1700000006 }

/-- An active, not finalized record created 500 s before 1700000000. -/
def agreementRecent : EstablishedAgreement :=
  { agreementS2 with CurrentAgreementId := "a7", AgreementCreationTime := 1699999500,
                     AgreementAcceptedTime := 1699999600 }

/-- An active, finalized, not executing record whose accepted time is the largest `int64`. -/
def agreementAcceptedMax : EstablishedAgreement :=
  { agreementS3 with CurrentAgreementId := "a8", AgreementAcceptedTime := 2 ^ 63 - 1 }

/-- An active, finalized, not executing record accepted 10 s after 1700000000. -/
def agreementFutureAccepted : EstablishedAgreement :=
  { agreementS3 with CurrentAgreementId := "a9", AgreementAcceptedTime := 1700000010 }

/-- The content of the database in the sample environments. -/
def sampleStore : List EstablishedAgreement :=
  [agreementS1, agreementS2, agreementS3, agreementRunning, agreementFutureCreated,
   agreementRecent, agreementAcceptedMax, agreementFutureAccepted]

/-- The sample store at time 1700000000; the ledger reports "not recorded" and the registry
answers every call with success. -/
def quietEnv : Env := storeEnv sampleStore 1700000000 false fun _ => (none, none)

/-- As `quietEnv`, but the ledger reports every agreement as recorded (scenario S1). -/
def recordedEnv : Env := storeEnv sampleStore 1700000000 true fun _ => (none, none)

/-- As `quietEnv`, but the database holds no record at all. -/
def absentRecordEnv : Env := storeEnv [] 1700000000 false fun _ => (none, none)

/-- As `quietEnv`, but the first two calls of the registry fail with a transport error and
the third succeeds (scenario S6). -/
def transportErrorEnv : Env :=
  storeEnv sampleStore 1700000000 false fun n =>
    if n < 2 then (none, some { msg := "network" }) else (none, none)

/-- A deployment with one service. -/
def sampleDeployment : Deployment := [("svc", "cfg")]

/-! ## governance/governance.go: the loops of the two activities -/

/-- The command loop of `(*GovernanceWorker).start`, run over the commands it receives from
`w.Commands`, in the order received: each iteration handles one command with the worker as
the previous iteration left it. -/
def processCommands (w : GovernanceWorker) (env : Env) (fuel : Nat) :
    List Command → Run GovernanceWorker
  | [] => pure w
  | command :: rest => do
      let w2 ← processCommand w env fuel command
      processCommands w2 env fuel rest

/-- The endless `for` loop of `governAgreements`, cut after the given number of
iterations (reconciler passes). -/
def governAgreementsLoop (w : GovernanceWorker) (env : Env) (fuel : Nat) : Nat → Run Unit
  | 0 => pure ()
  | passes + 1 => do
      governAgreementsPass w env fuel
      governAgreementsLoop w env fuel passes

/-- Whether an effect is the publication of a `GovernanceCancelationMessage` whose `Event()`
id is AGREEMENT_ENDED for the given protocol and agreement id. -/
def isCancelationFor (protocol : String) (agreementId : String) : Effect → Bool
  | .sendMessage (.GovernanceCancelationMessage m) =>
      m.Event.Id == AGREEMENT_ENDED
        && m.GovernanceMaintenanceMessage.AgreementProtocol == protocol
        && m.GovernanceMaintenanceMessage.AgreementId == agreementId
  | _ => false

/-- The number of such publications in a trace. -/
def cancelationsFor (protocol : String) (agreementId : String) (trace : List Effect) : Nat :=
  trace.countP (isCancelationFor protocol agreementId)

/-- Whether a command is a `CleanupExecutionCommand` for the given protocol and agreement id. -/
def isCleanupFor (protocol : String) (agreementId : String) : Command → Bool
  | .CleanupExecutionCommand cmd =>
      cmd.AgreementProtocol == protocol && cmd.AgreementId == agreementId
  | _ => false

/-- Whether a record has the given protocol and agreement id. -/
def isRecordOf (protocol : String) (agreementId : String) (ag : EstablishedAgreement) : Bool :=
  ag.AgreementProtocol == protocol && ag.CurrentAgreementId == agreementId

/-- Modelled from the spec: the record that `persistence.AgreementStateFinalized` persists,
"set `agreementFinalizedTime = now` in P" (the persistence package is outside the embedded
sources). -/
def AgreementStateFinalizedRecord (now : Nat) (ag : EstablishedAgreement) : EstablishedAgreement :=
  { ag with AgreementFinalizedTime := now }

/-- A database that holds only `agreementS2` and rejects every write at time 1700000000:
marking terminated and deleting both return an error, so its content stays as it is. Reads,
the ledger (which reports "not recorded") and the registry succeed. -/
def writeFailureEnv : Env :=
  { storeEnv [agreementS2] 1700000000 false (fun _ => (none, none)) with
    AgreementStateFinalized := fun _ _ => some { msg := "write failed" }
    AgreementStateExecutionStarted := fun _ _ _ => some { msg := "write failed" }
    AgreementStateTerminated := fun _ _ => some { msg := "write failed" }
    DeleteEstablishedAgreement := fun _ _ => some { msg := "write failed" } }

/-- An active, not finalized record created 100 s and accepted 90 s before 1700000000. -/
def agreementFresh : EstablishedAgreement :=
  { CurrentAgreementId := "a10", AgreementProtocol := "Citizen Scientist",
    CounterPartyAddress := "0xEE", Proposal := "proposal", ProposalSig := "sig",
    AgreementCreationTime := 1699999900, AgreementAcceptedTime := 1699999910,
    AgreementFinalizedTime := 0, AgreementExecutionStartTime := 0, AgreementTerminated := 0,
    CurrentDeployment := [] }

/-- A database that holds `agreementFresh` at time 1700000000; every collaborator succeeds
and the ledger reports the agreement as recorded, but no proposal can be parsed:
`ValidateProposal` returns an error. -/
def undecodableEnv : Env :=
  { storeEnv [agreementFresh] 1700000000 true (fun _ => (none, none)) with
    ValidateProposal := fun _ => .error { msg := "malformed proposal" } }

/-! ## cli/kube_deployment/kube_deployment.go -/

/-- A Go value of type `interface{}` as far as `Validate` can tell values apart: the nil
interface, a string, a `map[string]interface{}` (as an association list; a nil map behaves
as the empty one), and a value of any other dynamic type, known by the name of its type. -/
inductive GoValue where
  | nil
  | string (s : String)
  | map (entries : List (String × GoValue))
  | other (typeName : String)

/-- The text that the verb `%T` prints for a value. -/
def GoValue.typeName : GoValue → String
  | .nil => "<nil>"
  | .string _ => "string"
  | .map _ => "map[string]interface {}"
  | .other typeName => typeName

/-- Go method `(*KubeDeploymentConfigPlugin).DefaultConfig`. -/
def KubeDeploymentConfigPlugin.DefaultConfig (_imageInfo : GoValue) : GoValue :=
  .map [("operatorYamlArchive", .string "")]

/-- Go method `(*KubeDeploymentConfigPlugin).Validate`; the result is the Go pair
`(owned, err)`. The error texts are the untranslated format strings of the message
printer. -/
def KubeDeploymentConfigPlugin.Validate (dep : GoValue) : Bool × Option GoError :=
  match dep with
  | .map dc =>
      match dc.lookup "operatorYamlArchive" with
      | none => (false, none)
      | some c =>
          match c with
          | .string ca =>
              if ca.length = 0 then
                (true, some { msg := "operatorYamlArchive must be non-empty strings" })
              else
                (true, none)
          | _ =>
              (true, some { msg := "operatorYamlArchive must have a string type value, has "
                ++ c.typeName })
  | _ => (false, none)

/-! ## Lemmas on runs -/

theorem Run.pure_eq {α : Type} (a : α) :
    (pure a : Run α) = { trace := [], outcome := .returned a } := rfl

theorem Run.bind_eq {α β : Type} (r : Run α) (f : α → Run β) : (r >>= f) = Run.bind r f := rfl

theorem Run.bind_call {α β : Type} (e : Effect) (a : α) (f : α → Run β) :
    Run.bind (Run.call e a) f = { trace := e :: (f a).trace, outcome := (f a).outcome } := rfl

theorem Run.bind_returned {α β : Type} (r : Run α) (a : α) (f : α → Run β)
    (h : r.outcome = .returned a) :
    Run.bind r f = { trace := r.trace ++ (f a).trace, outcome := (f a).outcome } := by
  simp [Run.bind, h]

theorem Run.bind_panicked {α β : Type} (r : Run α) (reason : String) (f : α → Run β)
    (h : r.outcome = .panicked reason) :
    Run.bind r f = { trace := r.trace, outcome := .panicked reason } := by
  simp [Run.bind, h]

/-- One iteration of the DELETE loop: a response-level error is returned, success returns
nil, and a pure transport error panics in the log line, before the sleep. -/
theorem deleteProducerAgreementLoop_succ (env : Env) (url : String) (fuel attempt : Nat) :
    deleteProducerAgreementLoop env url (fuel + 1) attempt =
      match env.InvokeExchange "DELETE" url attempt with
      | (some e, _) =>
          { trace := [.InvokeExchange "DELETE" url none], outcome := .returned (some e) }
      | (none, some _) =>
          { trace := [.InvokeExchange "DELETE" url none],
            outcome := .panicked "invalid memory address or nil pointer dereference" }
      | (none, none) =>
          { trace := [.InvokeExchange "DELETE" url none], outcome := .returned none } := by
  rcases h : env.InvokeExchange "DELETE" url attempt with ⟨_ | e, _ | t⟩ <;>
    simp [deleteProducerAgreementLoop, h, Run.bind_eq, Run.bind, Run.call, Run.pure_eq,
      GoError.Error, Run.panic]

/-- One iteration of the PUT loop, as for the DELETE loop. -/
theorem recordProducerAgreementStateLoop_succ (env : Env) (url : String) (body : PutAgreementState)
    (fuel attempt : Nat) :
    recordProducerAgreementStateLoop env url body (fuel + 1) attempt =
      match env.InvokeExchange "PUT" url attempt with
      | (some e, _) =>
          { trace := [.InvokeExchange "PUT" url (some body)], outcome := .returned (some e) }
      | (none, some _) =>
          { trace := [.InvokeExchange "PUT" url (some body)],
            outcome := .panicked "invalid memory address or nil pointer dereference" }
      | (none, none) =>
          { trace := [.InvokeExchange "PUT" url (some body)], outcome := .returned none } := by
  rcases h : env.InvokeExchange "PUT" url attempt with ⟨_ | e, _ | t⟩ <;>
    simp [recordProducerAgreementStateLoop, h, Run.bind_eq, Run.bind, Run.call, Run.pure_eq,
      GoError.Error, Run.panic]

/-- Whatever the registry answers, `recordProducerAgreementState` makes exactly one call. -/
theorem recordProducerAgreementState_trace (env : Env) (fuel : Nat)
    (url deviceId token agreementId microservice state : String) :
    (recordProducerAgreementState env (fuel + 1) url deviceId token agreementId microservice
      state).trace =
      [.InvokeExchange "PUT"
        (url ++ "devices/" ++ deviceId ++ "/agreements/" ++ agreementId ++ "?token=" ++ token)
        (some { Microservice := microservice, State := state })] := by
  unfold recordProducerAgreementState
  simp only [recordProducerAgreementStateLoop_succ]
  split <;> rfl

/-- When the registry does not answer the first DELETE with a pure transport error,
`deleteProducerAgreement` returns after exactly one call. -/
theorem deleteProducerAgreement_returns (env : Env) (fuel : Nat)
    (url deviceId token agreementId : String)
    (hreg : (env.InvokeExchange "DELETE"
        (url ++ "devices/" ++ deviceId ++ "/agreements/" ++ agreementId ++ "?token=" ++ token) 0).1
          ≠ none ∨
      (env.InvokeExchange "DELETE"
        (url ++ "devices/" ++ deviceId ++ "/agreements/" ++ agreementId ++ "?token=" ++ token) 0).2
          = none) :
    ∃ err, deleteProducerAgreement env (fuel + 1) url deviceId token agreementId =
      { trace := [.InvokeExchange "DELETE"
          (url ++ "devices/" ++ deviceId ++ "/agreements/" ++ agreementId ++ "?token=" ++ token)
          none],
        outcome := .returned err } := by
  unfold deleteProducerAgreement
  simp only [deleteProducerAgreementLoop_succ]
  rcases h : env.InvokeExchange "DELETE"
      (url ++ "devices/" ++ deviceId ++ "/agreements/" ++ agreementId ++ "?token=" ++ token) 0
    with ⟨_ | e, _ | t⟩
  · exact ⟨none, rfl⟩
  · simp [h] at hreg
  · exact ⟨some e, rfl⟩
  · exact ⟨some e, rfl⟩

/-- The five steps of `cancelAgreement`, in order, when the registry does not answer the
first DELETE with a pure transport error, the lookup finds a record and the contracts are
initialised; whether a step reports an error changes nothing. -/
theorem cancelAgreement_five_steps_found (w : GovernanceWorker) (env : Env) (fuel : Nat)
    (agreementId agreementProtocol : String) (reason : Nat) (bc : BaseContracts)
    (first : EstablishedAgreement) (rest : List EstablishedAgreement)
    (hbc : w.bc = some bc)
    (hreg : (env.InvokeExchange "DELETE"
        (w.Config.Edge.ExchangeURL ++ "devices/" ++ w.deviceId ++ "/agreements/" ++ agreementId
          ++ "?token=" ++ w.deviceToken) 0).1 ≠ none ∨
      (env.InvokeExchange "DELETE"
        (w.Config.Edge.ExchangeURL ++ "devices/" ++ w.deviceId ++ "/agreements/" ++ agreementId
          ++ "?token=" ++ w.deviceToken) 0).2 = none)
    (hfind : env.FindEstablishedAgreements agreementProtocol [.IdEAFilter agreementId]
      = .ok (first :: rest)) :
    cancelAgreement w env (fuel + 1) agreementId agreementProtocol reason =
      { trace :=
          [ .AgreementStateTerminated agreementId agreementProtocol,
            .InvokeExchange "DELETE"
              (w.Config.Edge.ExchangeURL ++ "devices/" ++ w.deviceId ++ "/agreements/"
                ++ agreementId ++ "?token=" ++ w.deviceToken) none,
            .FindEstablishedAgreements agreementProtocol [.IdEAFilter agreementId],
            .TerminateAgreement first.CounterPartyAddress agreementId reason bc.Agreements,
            .DeleteEstablishedAgreement agreementId agreementProtocol ],
        outcome := .returned () } := by
  obtain ⟨err, hdel⟩ := deleteProducerAgreement_returns env fuel w.Config.Edge.ExchangeURL
    w.deviceId w.deviceToken agreementId hreg
  simp [cancelAgreement, hdel, hfind, hbc, GovernanceWorker.bcAgreements, index0, Run.bind_eq,
    Run.bind, Run.call, Run.pure_eq]

/-- The five steps of `cancelAgreement` when the lookup itself fails: the counterparty
passed to `TerminateAgreement` is the empty string. -/
theorem cancelAgreement_five_steps_lookup_error (w : GovernanceWorker) (env : Env) (fuel : Nat)
    (agreementId agreementProtocol : String) (reason : Nat) (bc : BaseContracts) (e : GoError)
    (hbc : w.bc = some bc)
    (hreg : (env.InvokeExchange "DELETE"
        (w.Config.Edge.ExchangeURL ++ "devices/" ++ w.deviceId ++ "/agreements/" ++ agreementId
          ++ "?token=" ++ w.deviceToken) 0).1 ≠ none ∨
      (env.InvokeExchange "DELETE"
        (w.Config.Edge.ExchangeURL ++ "devices/" ++ w.deviceId ++ "/agreements/" ++ agreementId
          ++ "?token=" ++ w.deviceToken) 0).2 = none)
    (hfind : env.FindEstablishedAgreements agreementProtocol [.IdEAFilter agreementId]
      = .error e) :
    cancelAgreement w env (fuel + 1) agreementId agreementProtocol reason =
      { trace :=
          [ .AgreementStateTerminated agreementId agreementProtocol,
            .InvokeExchange "DELETE"
              (w.Config.Edge.ExchangeURL ++ "devices/" ++ w.deviceId ++ "/agreements/"
                ++ agreementId ++ "?token=" ++ w.deviceToken) none,
            .FindEstablishedAgreements agreementProtocol [.IdEAFilter agreementId],
            .TerminateAgreement "" agreementId reason bc.Agreements,
            .DeleteEstablishedAgreement agreementId agreementProtocol ],
        outcome := .returned () } := by
  obtain ⟨err, hdel⟩ := deleteProducerAgreement_returns env fuel w.Config.Edge.ExchangeURL
    w.deviceId w.deviceToken agreementId hreg
  simp [cancelAgreement, hdel, hfind, hbc, GovernanceWorker.bcAgreements, Run.bind_eq,
    Run.bind, Run.call, Run.pure_eq]

/-- With initialised contracts, `cancelAgreement` returns unless the registry answers the
first DELETE with a pure transport error or the lookup returns an empty list without
error. -/
theorem cancelAgreement_returns (w : GovernanceWorker) (env : Env) (fuel : Nat)
    (agreementId agreementProtocol : String) (reason : Nat) (bc : BaseContracts)
    (hbc : w.bc = some bc)
    (hreg : (env.InvokeExchange "DELETE"
        (w.Config.Edge.ExchangeURL ++ "devices/" ++ w.deviceId ++ "/agreements/" ++ agreementId
          ++ "?token=" ++ w.deviceToken) 0).1 ≠ none ∨
      (env.InvokeExchange "DELETE"
        (w.Config.Edge.ExchangeURL ++ "devices/" ++ w.deviceId ++ "/agreements/" ++ agreementId
          ++ "?token=" ++ w.deviceToken) 0).2 = none)
    (hfind : ∀ l, env.FindEstablishedAgreements agreementProtocol [.IdEAFilter agreementId]
      = .ok l → l ≠ []) :
    (cancelAgreement w env (fuel + 1) agreementId agreementProtocol reason).outcome
      = .returned () := by
  rcases h : env.FindEstablishedAgreements agreementProtocol [.IdEAFilter agreementId]
    with e | l
  · rw [cancelAgreement_five_steps_lookup_error w env fuel agreementId agreementProtocol reason
      bc e hbc hreg h]
  · cases l with
    | nil => exact absurd rfl (hfind [] h)
    | cons first rest =>
      rw [cancelAgreement_five_steps_found w env fuel agreementId agreementProtocol reason
        bc first rest hbc hreg h]

/-- The `range` loop applies `governAgreement` to the records in order: when each record is
handled without panic, the trace of the loop is the concatenation of the traces of the
records. -/
theorem governEach_returned (w : GovernanceWorker) (env : Env) (fuel : Nat)
    (ags : List EstablishedAgreement)
    (hall : ∀ ag ∈ ags, (governAgreement w env fuel ag).outcome = .returned ()) :
    governEach w env fuel ags =
      { trace := (ags.map fun ag => (governAgreement w env fuel ag).trace).flatten,
        outcome := .returned () } := by
  induction ags with
  | nil => rfl
  | cons ag rest ih =>
    have hag := hall ag (List.mem_cons_self ag rest)
    have hrest := ih (fun a ha => hall a (List.mem_cons_of_mem ag ha))
    simp [governEach, Run.bind_eq, Run.bind, hag, hrest]

/-- One reconciler pass: the query with the active filter under `PROTOCOL_NAME`, then the
steps of `governAgreement` for each record found, in order, then the sleep of 10 s. -/
theorem governAgreementsPass_found (w : GovernanceWorker) (env : Env) (fuel : Nat)
    (ags : List EstablishedAgreement)
    (hfound : env.FindEstablishedAgreements env.PROTOCOL_NAME [.notYetFinalFilter] = .ok ags)
    (hall : ∀ ag ∈ ags, (governAgreement w env fuel ag).outcome = .returned ()) :
    governAgreementsPass w env fuel =
      { trace := .FindEstablishedAgreements env.PROTOCOL_NAME [.notYetFinalFilter] ::
          ((ags.map fun ag => (governAgreement w env fuel ag).trace).flatten ++ [.Sleep 10]),
        outcome := .returned () } := by
  simp [governAgreementsPass, hfound, governEach_returned w env fuel ags hall, Run.bind_eq,
    Run.bind, Run.call]

/-! ## The cancellation pipeline -/

/-- C1 (evaluation at the failing inputs). `cancelAgreement` does not always perform its five
steps. (1) For an agreement of which the database holds no record, the lookup returns an
empty list without error and the code panics on `establishedAgreements[0]`: the worker
stops after the lookup, and neither `TerminateAgreement` nor `DeleteEstablishedAgreement`
is called. (2) When the first registry DELETE fails with a transport error, the code panics
in the log line `err.Error()` (nil `err`): the worker stops after the first DELETE call,
without a retry, lookup, termination or deletion. -/
theorem cancelAgreement_stops_early (fuel : Nat) :
    cancelAgreement sampleWorker absentRecordEnv (fuel + 1) "a4" "p" CANCEL_CONTAINER_FAILURE =
      { trace :=
          [ .AgreementStateTerminated "a4" "p",
            .InvokeExchange "DELETE" "https://exchange/v1/devices/dev/agreements/a4?token=tok" none,
            .FindEstablishedAgreements "p" [.IdEAFilter "a4"] ],
        outcome := .panicked "index out of range" } ∧
    cancelAgreement sampleWorker transportErrorEnv (fuel + 1) "a2" "Citizen Scientist"
        CANCEL_NOT_FINALIZED_TIMEOUT =
      { trace :=
          [ .AgreementStateTerminated "a2" "Citizen Scientist",
            .InvokeExchange "DELETE" "https://exchange/v1/devices/dev/agreements/a2?token=tok" none ],
        outcome := .panicked "invalid memory address or nil pointer dereference" } := by
  constructor <;> rfl

/-! ## The reconciler: records awaiting finalization -/

/-- C2 (counterexample). The claim's test `now - agreementCreationTime > AgreementTimeoutS`
in unsigned 64-bit arithmetic is not the test of the code. (1) For an active, not finalized,
not recorded record created 5 s after `now`, the unsigned difference wraps to 2^64 - 5 and
exceeds the timeout of 3600, yet the pass only verifies: no cancellation, no message.
(2) With a timeout of 2^64 - 100 and a record created 500 s before `now`, the difference 500
does not exceed the timeout (as unsigned or as mathematical integers), yet the pass runs the
cancellation pipeline with reason 200 and publishes the cancelation message. -/
theorem not_finalized_timeout_counterexample :
    (notYetFinalFilter agreementFutureCreated = true ∧
      agreementFutureCreated.AgreementFinalizedTime = 0 ∧
      quietEnv.VerifyAgreementRecorded "a6" "0xBB" "sig" "0xC0" = (false, none) ∧
      (uint64 quietEnv.Unix + 2 ^ 64 - agreementFutureCreated.AgreementCreationTime) % 2 ^ 64
        > sampleWorker.Config.Edge.AgreementTimeoutS ∧
      governAgreement sampleWorker quietEnv 1 agreementFutureCreated =
        { trace := [.VerifyAgreementRecorded "a6" "0xBB" "sig" "0xC0"],
          outcome := .returned () }) ∧
    (notYetFinalFilter agreementRecent = true ∧
      agreementRecent.AgreementFinalizedTime = 0 ∧
      quietEnv.VerifyAgreementRecorded "a7" "0xBB" "sig" "0xC0" = (false, none) ∧
      ¬ ((uint64 quietEnv.Unix + 2 ^ 64 - agreementRecent.AgreementCreationTime) % 2 ^ 64
        > hugeTimeoutWorker.Config.Edge.AgreementTimeoutS) ∧
      ¬ (quietEnv.Unix - (agreementRecent.AgreementCreationTime : Int)
        > (hugeTimeoutWorker.Config.Edge.AgreementTimeoutS : Int)) ∧
      governAgreement hugeTimeoutWorker quietEnv 1 agreementRecent =
        { trace :=
            [ .VerifyAgreementRecorded "a7" "0xBB" "sig" "0xC0",
              .AgreementStateTerminated "a7" "Citizen Scientist",
              .InvokeExchange "DELETE" "https://exchange/v1/devices/dev/agreements/a7?token=tok"
                none,
              .FindEstablishedAgreements "Citizen Scientist" [.IdEAFilter "a7"],
              .TerminateAgreement "0xBB" "a7" 200 "0xC0",
              .DeleteEstablishedAgreement "a7" "Citizen Scientist",
              .sendMessage (.GovernanceCancelationMessage
                { GovernanceMaintenanceMessage :=
                    { event := { Id := "AGREEMENT_ENDED" },
                      AgreementProtocol := "Citizen Scientist", AgreementId := "a7",
                      Deployment := some [("svc", "cfg")] },
                  Message := none, Cause := "AG_TERMINATED" }) ],
          outcome := .returned () }) := by
  refine ⟨⟨by decide, by decide, by decide, by decide, by decide⟩,
    ⟨by decide, by decide, by decide, by decide, by decide, by decide⟩⟩

/-- C2 (amended). For a record with `AgreementFinalizedTime = 0` that the ledger reports as
not recorded without error, the pass runs `cancelAgreement` with reason 200 and then
publishes `GovernanceCancelation` (AGREEMENT_ENDED, AG_TERMINATED) for it exactly when
`AgreementCreationTime + AgreementTimeoutS`, computed in wrapping `uint64` arithmetic, is
less than `now`; otherwise it only verifies. Whenever the creation time is not after `now`
and the sum does not overflow, that test is `now - AgreementCreationTime > AgreementTimeoutS`.
The statement is for the case that the pipeline is not cut short by a panic: the registry
does not answer the first DELETE with a pure transport error and the lookup does not return
an empty list without error. -/
theorem governAgreement_not_recorded (w : GovernanceWorker) (env : Env) (fuel : Nat)
    (ag : EstablishedAgreement) (bc : BaseContracts)
    (hbc : w.bc = some bc)
    (hfin : ag.AgreementFinalizedTime = 0)
    (hver : env.VerifyAgreementRecorded ag.CurrentAgreementId ag.CounterPartyAddress
      ag.ProposalSig bc.Agreements = (false, none))
    (hreg : (env.InvokeExchange "DELETE"
        (w.Config.Edge.ExchangeURL ++ "devices/" ++ w.deviceId ++ "/agreements/"
          ++ ag.CurrentAgreementId ++ "?token=" ++ w.deviceToken) 0).1 ≠ none ∨
      (env.InvokeExchange "DELETE"
        (w.Config.Edge.ExchangeURL ++ "devices/" ++ w.deviceId ++ "/agreements/"
          ++ ag.CurrentAgreementId ++ "?token=" ++ w.deviceToken) 0).2 = none)
    (hfind : ∀ l, env.FindEstablishedAgreements ag.AgreementProtocol
      [.IdEAFilter ag.CurrentAgreementId] = .ok l → l ≠ []) :
    governAgreement w env (fuel + 1) ag =
      (if (ag.AgreementCreationTime + w.Config.Edge.AgreementTimeoutS) % 2 ^ 64 < uint64 env.Unix
       then
        { trace :=
            .VerifyAgreementRecorded ag.CurrentAgreementId ag.CounterPartyAddress ag.ProposalSig
                bc.Agreements ::
              (cancelAgreement w env (fuel + 1) ag.CurrentAgreementId ag.AgreementProtocol
                CANCEL_NOT_FINALIZED_TIMEOUT).trace ++
              [.sendMessage (.GovernanceCancelationMessage
                { GovernanceMaintenanceMessage :=
                    { event := { Id := AGREEMENT_ENDED },
                      AgreementProtocol := ag.AgreementProtocol,
                      AgreementId := ag.CurrentAgreementId,
                      Deployment := some ag.CurrentDeployment },
                  Message := none, Cause := AG_TERMINATED })],
          outcome := .returned () }
       else
        { trace := [.VerifyAgreementRecorded ag.CurrentAgreementId ag.CounterPartyAddress
            ag.ProposalSig bc.Agreements],
          outcome := .returned () }) ∧
    (ag.AgreementCreationTime ≤ uint64 env.Unix →
      ag.AgreementCreationTime + w.Config.Edge.AgreementTimeoutS < 2 ^ 64 →
      ((ag.AgreementCreationTime + w.Config.Edge.AgreementTimeoutS) % 2 ^ 64 < uint64 env.Unix ↔
        uint64 env.Unix - ag.AgreementCreationTime > w.Config.Edge.AgreementTimeoutS)) := by
  have hret := cancelAgreement_returns w env fuel ag.CurrentAgreementId ag.AgreementProtocol
    CANCEL_NOT_FINALIZED_TIMEOUT bc hbc hreg hfind
  refine ⟨?_, ?_⟩
  · unfold governAgreement
    by_cases hc :
        (ag.AgreementCreationTime + w.Config.Edge.AgreementTimeoutS) % 2 ^ 64 < uint64 env.Unix
    · have hc2 := hc
      norm_num at hc2
      simp [hfin, hbc, GovernanceWorker.bcAgreements, hver, hc2, Run.bind_eq, Run.bind, Run.call,
        Run.pure_eq, hret, NewGovernanceCancelationMessage, NewGovernanceMaintenanceMessage]
    · have hc2 := hc
      norm_num at hc2
      have hc3 := Nat.not_lt.mpr hc2
      simp [hfin, hbc, GovernanceWorker.bcAgreements, hver, hc3, Run.bind_eq, Run.bind, Run.call,
        Run.pure_eq]
  · intro hle hsum
    rw [Nat.mod_eq_of_lt hsum]
    omega

/-- C2 (witness): scenario S2. The record created 7200 s ago with a timeout of 3600 s is
cancelled with reason 200 and the cancelation message is published once. -/
theorem governAgreement_not_recorded_witness :
    sampleWorker.bc = some { Agreements := "0xC0" } ∧
    agreementS2.AgreementFinalizedTime = 0 ∧
    quietEnv.VerifyAgreementRecorded "a2" "0xBB" "sig" "0xC0" = (false, none) ∧
    governAgreement sampleWorker quietEnv 1 agreementS2 =
      { trace :=
          [ .VerifyAgreementRecorded "a2" "0xBB" "sig" "0xC0",
            .AgreementStateTerminated "a2" "Citizen Scientist",
            .InvokeExchange "DELETE" "https://exchange/v1/devices/dev/agreements/a2?token=tok" none,
            .FindEstablishedAgreements "Citizen Scientist" [.IdEAFilter "a2"],
            .TerminateAgreement "0xBB" "a2" 200 "0xC0",
            .DeleteEstablishedAgreement "a2" "Citizen Scientist",
            .sendMessage (.GovernanceCancelationMessage
              { GovernanceMaintenanceMessage :=
                  { event := { Id := "AGREEMENT_ENDED" },
                    AgreementProtocol := "Citizen Scientist", AgreementId := "a2",
                    Deployment := some [("svc", "cfg")] },
                Message := none, Cause := "AG_TERMINATED" }) ],
        outcome := .returned () } :=
  ⟨rfl, rfl, rfl,
    (governAgreement_not_recorded sampleWorker quietEnv 0 agreementS2 { Agreements := "0xC0" }
      rfl rfl rfl (Or.inr rfl) (fun l h => by cases h; decide)).1⟩

/-! ## The reconciler: finalized records -/

/-- C3 (counterexample). The claim's test `now - agreementAcceptedTime > 3600` is not the
test of the code, which adds in wrapping `int64` arithmetic. (1) For an active, finalized,
not executing record whose accepted time is 2^63 - 1, the difference `now - accepted` is
negative, yet `int64(accepted) + 3600` wraps to a negative number and the pass runs the
cancellation pipeline with reason 204 and publishes the cancelation message. (2) Read as an
unsigned 64-bit difference instead, the claim fails for a record accepted 10 s after `now`:
the difference wraps to 2^64 - 10 and exceeds 3600, yet the pass does nothing. -/
theorem not_executed_timeout_counterexample :
    (notYetFinalFilter agreementAcceptedMax = true ∧
      agreementAcceptedMax.AgreementFinalizedTime ≠ 0 ∧
      agreementAcceptedMax.AgreementExecutionStartTime = 0 ∧
      ¬ (quietEnv.Unix - (agreementAcceptedMax.AgreementAcceptedTime : Int) > 3600) ∧
      governAgreement sampleWorker quietEnv 1 agreementAcceptedMax =
        { trace :=
            [ .AgreementStateTerminated "a8" "Citizen Scientist",
              .InvokeExchange "DELETE" "https://exchange/v1/devices/dev/agreements/a8?token=tok"
                none,
              .FindEstablishedAgreements "Citizen Scientist" [.IdEAFilter "a8"],
              .TerminateAgreement "0xCC" "a8" 204 "0xC0",
              .DeleteEstablishedAgreement "a8" "Citizen Scientist",
              .sendMessage (.GovernanceCancelationMessage
                { GovernanceMaintenanceMessage :=
                    { event := { Id := "AGREEMENT_ENDED" },
                      AgreementProtocol := "Citizen Scientist", AgreementId := "a8",
                      Deployment := some [("svc", "cfg")] },
                  Message := none, Cause := "AG_TERMINATED" }) ],
          outcome := .returned () }) ∧
    (notYetFinalFilter agreementFutureAccepted = true ∧
      agreementFutureAccepted.AgreementFinalizedTime ≠ 0 ∧
      agreementFutureAccepted.AgreementExecutionStartTime = 0 ∧
      (uint64 quietEnv.Unix + 2 ^ 64 - agreementFutureAccepted.AgreementAcceptedTime) % 2 ^ 64
        > 3600 ∧
      governAgreement sampleWorker quietEnv 1 agreementFutureAccepted =
        { trace := [], outcome := .returned () }) := by
  refine ⟨⟨by decide, by decide, by decide, by decide, by decide⟩,
    ⟨by decide, by decide, by decide, by decide, by decide⟩⟩

/-- C3 (amended). For a record with `AgreementFinalizedTime ≠ 0`, the pass runs
`cancelAgreement` with reason 204 and then publishes `GovernanceCancelation`
(AGREEMENT_ENDED, AG_TERMINATED) for it exactly when `AgreementExecutionStartTime = 0` and
`int64(AgreementAcceptedTime) + 3600`, computed in wrapping `int64` arithmetic, is less than
`now`; otherwise it runs no cancellation and publishes no cancelation message. Whenever
`AgreementAcceptedTime + 3600 < 2^63`, that test is `now - AgreementAcceptedTime > 3600`.
The statement is for the case that the pipeline is not cut short by a panic: the registry
does not answer the first DELETE with a pure transport error and the lookup does not return
an empty list without error. -/
theorem governAgreement_finalized (w : GovernanceWorker) (env : Env) (fuel : Nat)
    (ag : EstablishedAgreement) (bc : BaseContracts)
    (hbc : w.bc = some bc)
    (hfin : ag.AgreementFinalizedTime ≠ 0)
    (hreg : (env.InvokeExchange "DELETE"
        (w.Config.Edge.ExchangeURL ++ "devices/" ++ w.deviceId ++ "/agreements/"
          ++ ag.CurrentAgreementId ++ "?token=" ++ w.deviceToken) 0).1 ≠ none ∨
      (env.InvokeExchange "DELETE"
        (w.Config.Edge.ExchangeURL ++ "devices/" ++ w.deviceId ++ "/agreements/"
          ++ ag.CurrentAgreementId ++ "?token=" ++ w.deviceToken) 0).2 = none)
    (hfind : ∀ l, env.FindEstablishedAgreements ag.AgreementProtocol
      [.IdEAFilter ag.CurrentAgreementId] = .ok l → l ≠ []) :
    governAgreement w env (fuel + 1) ag =
      (if ag.AgreementExecutionStartTime = 0 ∧
          wrapInt64 (int64 ag.AgreementAcceptedTime + 3600) < env.Unix
       then
        { trace :=
            (cancelAgreement w env (fuel + 1) ag.CurrentAgreementId ag.AgreementProtocol
                CANCEL_NOT_EXECUTED_TIMEOUT).trace ++
              [.sendMessage (.GovernanceCancelationMessage
                { GovernanceMaintenanceMessage :=
                    { event := { Id := AGREEMENT_ENDED },
                      AgreementProtocol := ag.AgreementProtocol,
                      AgreementId := ag.CurrentAgreementId,
                      Deployment := some ag.CurrentDeployment },
                  Message := none, Cause := AG_TERMINATED })],
          outcome := .returned () }
       else if ag.AgreementExecutionStartTime = 0 then
        { trace := [], outcome := .returned () }
       else
        { trace :=
            [.sendMessage (.GovernanceMaintenanceMessage
              { event := { Id := CONTAINER_MAINTAIN },
                AgreementProtocol := ag.AgreementProtocol,
                AgreementId := ag.CurrentAgreementId,
                Deployment := some ag.CurrentDeployment })],
          outcome := .returned () }) ∧
    ((ag.AgreementAcceptedTime : Int) + 3600 < 2 ^ 63 →
      (wrapInt64 (int64 ag.AgreementAcceptedTime + 3600) < env.Unix ↔
        env.Unix - (ag.AgreementAcceptedTime : Int) > 3600)) := by
  have hret := cancelAgreement_returns w env fuel ag.CurrentAgreementId ag.AgreementProtocol
    CANCEL_NOT_EXECUTED_TIMEOUT bc hbc hreg hfind
  refine ⟨?_, ?_⟩
  · unfold governAgreement
    rw [if_neg hfin]
    by_cases hex : ag.AgreementExecutionStartTime = 0
    · have hcast : ((MAX_CONTRACT_PRELAUNCH_TIME_M * 60 : Nat) : Int) = 3600 := by decide
      rw [if_neg (not_not.mpr hex), hcast]
      by_cases hc : wrapInt64 (int64 ag.AgreementAcceptedTime + 3600) < env.Unix
      · rw [if_pos hc, if_pos ⟨hex, hc⟩]
        simp [Run.bind_eq, Run.bind, Run.call, hret, NewGovernanceCancelationMessage,
          NewGovernanceMaintenanceMessage]
      · rw [if_neg hc, if_neg (fun h => hc h.2), if_pos hex]
        rfl
    · rw [if_pos hex, if_neg (fun h => hex h.1), if_neg hex]
      rfl
  · intro hsmall
    have h0 : (0 : Int) ≤ (ag.AgreementAcceptedTime : Int) := Int.ofNat_nonneg _
    have h1 : int64 ag.AgreementAcceptedTime = (ag.AgreementAcceptedTime : Int) := by
      unfold int64 wrapInt64
      norm_num at hsmall ⊢
      omega
    have h2 : wrapInt64 ((ag.AgreementAcceptedTime : Int) + 3600)
        = (ag.AgreementAcceptedTime : Int) + 3600 := by
      unfold wrapInt64
      norm_num at hsmall ⊢
      omega
    rw [h1, h2]
    constructor <;> intro h <;> omega

/-- C3 (witness): scenario S3. The record accepted 3700 s ago and never launched is
cancelled with reason 204 and the cancelation message is published once. -/
theorem governAgreement_finalized_witness :
    sampleWorker.bc = some { Agreements := "0xC0" } ∧
    agreementS3.AgreementFinalizedTime ≠ 0 ∧
    governAgreement sampleWorker quietEnv 1 agreementS3 =
      { trace :=
          [ .AgreementStateTerminated "a3" "Citizen Scientist",
            .InvokeExchange "DELETE" "https://exchange/v1/devices/dev/agreements/a3?token=tok" none,
            .FindEstablishedAgreements "Citizen Scientist" [.IdEAFilter "a3"],
            .TerminateAgreement "0xCC" "a3" 204 "0xC0",
            .DeleteEstablishedAgreement "a3" "Citizen Scientist",
            .sendMessage (.GovernanceCancelationMessage
              { GovernanceMaintenanceMessage :=
                  { event := { Id := "AGREEMENT_ENDED" },
                    AgreementProtocol := "Citizen Scientist", AgreementId := "a3",
                    Deployment := some [("svc", "cfg")] },
                Message := none, Cause := "AG_TERMINATED" }) ],
        outcome := .returned () } :=
  ⟨rfl, by decide,
    (governAgreement_finalized sampleWorker quietEnv 0 agreementS3 { Agreements := "0xC0" }
      rfl (by decide) (Or.inr rfl) (fun l h => by cases h; decide)).1⟩

/-- C4. For a record with `AgreementFinalizedTime = 0` that the ledger reports as recorded
without error and whose proposal decodes to a policy with at least one API spec, the pass
performs exactly three steps, in this order: the ledger verification, then
`AgreementStateFinalized` for the record's agreement id under the protocol of the pass
(`PROTOCOL_NAME`), then one registry PUT to
`ExchangeURL + "devices/" + deviceId + "/agreements/" + agreementId + "?token=" + token` with
microservice `APISpecs[0].SpecRef` and state "Finalized Agreement". There is no step of the
cancellation pipeline and no message in the trace. This holds whatever the persistence
store and the registry answer. -/
theorem governAgreement_recorded (w : GovernanceWorker) (env : Env) (fuel : Nat)
    (ag : EstablishedAgreement) (bc : BaseContracts) (proposal : Proposal) (tcPolicy : Policy)
    (spec : APISpecification) (rest : List APISpecification)
    (hbc : w.bc = some bc)
    (hfin : ag.AgreementFinalizedTime = 0)
    (hver : env.VerifyAgreementRecorded ag.CurrentAgreementId ag.CounterPartyAddress
      ag.ProposalSig bc.Agreements = (true, none))
    (hprop : env.ValidateProposal ag.Proposal = .ok proposal)
    (hpol : env.DemarshalPolicy proposal.TsAndCs = .ok tcPolicy)
    (hspecs : tcPolicy.APISpecs = spec :: rest) :
    (governAgreement w env (fuel + 1) ag).trace =
      [ .VerifyAgreementRecorded ag.CurrentAgreementId ag.CounterPartyAddress ag.ProposalSig
          bc.Agreements,
        .AgreementStateFinalized ag.CurrentAgreementId env.PROTOCOL_NAME,
        .InvokeExchange "PUT"
          (w.Config.Edge.ExchangeURL ++ "devices/" ++ w.deviceId ++ "/agreements/"
            ++ ag.CurrentAgreementId ++ "?token=" ++ w.deviceToken)
          (some { Microservice := spec.SpecRef, State := "Finalized Agreement" }) ] := by
  have hput := recordProducerAgreementState_trace env fuel w.Config.Edge.ExchangeURL w.deviceId
    w.deviceToken ag.CurrentAgreementId spec.SpecRef "Finalized Agreement"
  unfold governAgreement
  simp only [if_pos hfin, hbc, GovernanceWorker.bcAgreements, hver, hprop, hpol, hspecs, index0,
    Run.bind_eq, Run.bind, Run.call, Run.pure_eq]
  simp only [ne_eq, not_true_eq_false, if_false, if_true]
  generalize recordProducerAgreementState env (fuel + 1) w.Config.Edge.ExchangeURL w.deviceId
    w.deviceToken ag.CurrentAgreementId spec.SpecRef "Finalized Agreement" = r at hput ⊢
  rcases r with ⟨t, o⟩
  cases o <;> simp_all

/-- C4 (witness): scenario S1. The registry receives one PUT for agreement a1 with
microservice "svc/x" and state "Finalized Agreement", after the record was marked
finalized. -/
theorem governAgreement_recorded_witness :
    sampleWorker.bc = some { Agreements := "0xC0" } ∧
    agreementS1.AgreementFinalizedTime = 0 ∧
    recordedEnv.VerifyAgreementRecorded "a1" "0xAA" "sig" "0xC0" = (true, none) ∧
    (governAgreement sampleWorker recordedEnv 1 agreementS1).trace =
      [ .VerifyAgreementRecorded "a1" "0xAA" "sig" "0xC0",
        .AgreementStateFinalized "a1" "Citizen Scientist",
        .InvokeExchange "PUT" "https://exchange/v1/devices/dev/agreements/a1?token=tok"
          (some { Microservice := "svc/x", State := "Finalized Agreement" }) ] :=
  ⟨rfl, rfl, rfl,
    governAgreement_recorded sampleWorker recordedEnv 0 agreementS1 { Agreements := "0xC0" }
      { TsAndCs := "policy" } { APISpecs := [{ SpecRef := "svc/x" }] } { SpecRef := "svc/x" } []
      rfl rfl rfl rfl rfl rfl⟩

/-- C5. For a record with `AgreementFinalizedTime ≠ 0` and `AgreementExecutionStartTime ≠ 0`,
the pass performs exactly one step: it publishes one `GovernanceMaintenance` message with
event id CONTAINER_MAINTAIN and the record's protocol, agreement id and current deployment.
No persistence operation and no step of the cancellation pipeline occurs, whatever the clock
reads and whatever the times of the record are. -/
theorem governAgreement_executing (w : GovernanceWorker) (env : Env) (fuel : Nat)
    (ag : EstablishedAgreement)
    (hfin : ag.AgreementFinalizedTime ≠ 0)
    (hexec : ag.AgreementExecutionStartTime ≠ 0) :
    governAgreement w env fuel ag =
      { trace :=
          [.sendMessage (.GovernanceMaintenanceMessage
            { event := { Id := CONTAINER_MAINTAIN },
              AgreementProtocol := ag.AgreementProtocol,
              AgreementId := ag.CurrentAgreementId,
              Deployment := some ag.CurrentDeployment })],
        outcome := .returned () } := by
  unfold governAgreement
  rw [if_neg hfin, if_pos hexec]
  rfl

/-- C5 (witness): a record finalized at 120 and executing since 130 is only probed at time
1700000000. -/
theorem governAgreement_executing_witness :
    agreementRunning.AgreementFinalizedTime ≠ 0 ∧
    agreementRunning.AgreementExecutionStartTime ≠ 0 ∧
    governAgreement sampleWorker quietEnv 1 agreementRunning =
      { trace :=
          [.sendMessage (.GovernanceMaintenanceMessage
            { event := { Id := "CONTAINER_MAINTAIN" },
              AgreementProtocol := "Citizen Scientist", AgreementId := "a5",
              Deployment := some [("svc", "cfg")] })],
        outcome := .returned () } :=
  ⟨by decide, by decide,
    governAgreement_executing sampleWorker quietEnv 1 agreementRunning (by decide) (by decide)⟩

/-! ## From bus messages to commands, and the command processor -/

/-- When the pipeline is not cut short by a panic (contracts initialised, no pure transport
error at the first DELETE, lookup not empty without error), processing a
`CleanupExecutionCommand` runs `cancelAgreement` with the command's agreement id, protocol
and reason and then publishes one `GovernanceCancelation` (AGREEMENT_ENDED, AG_TERMINATED)
with the command's protocol, agreement id and deployment. -/
theorem processCommand_cleanup (w : GovernanceWorker) (env : Env) (fuel : Nat)
    (cmd : CleanupExecutionCommand) (bc : BaseContracts)
    (hbc : w.bc = some bc)
    (hreg : (env.InvokeExchange "DELETE"
        (w.Config.Edge.ExchangeURL ++ "devices/" ++ w.deviceId ++ "/agreements/"
          ++ cmd.AgreementId ++ "?token=" ++ w.deviceToken) 0).1 ≠ none ∨
      (env.InvokeExchange "DELETE"
        (w.Config.Edge.ExchangeURL ++ "devices/" ++ w.deviceId ++ "/agreements/"
          ++ cmd.AgreementId ++ "?token=" ++ w.deviceToken) 0).2 = none)
    (hfind : ∀ l, env.FindEstablishedAgreements cmd.AgreementProtocol
      [.IdEAFilter cmd.AgreementId] = .ok l → l ≠ []) :
    processCommand w env (fuel + 1) (.CleanupExecutionCommand cmd) =
      { trace :=
          (cancelAgreement w env (fuel + 1) cmd.AgreementId cmd.AgreementProtocol cmd.Reason).trace
            ++ [.sendMessage (.GovernanceCancelationMessage
                { GovernanceMaintenanceMessage :=
                    { event := { Id := AGREEMENT_ENDED },
                      AgreementProtocol := cmd.AgreementProtocol,
                      AgreementId := cmd.AgreementId,
                      Deployment := cmd.Deployment },
                  Message := none, Cause := AG_TERMINATED })],
        outcome := .returned w } := by
  have hret := cancelAgreement_returns w env fuel cmd.AgreementId cmd.AgreementProtocol
    cmd.Reason bc hbc hreg hfind
  simp [processCommand, Run.bind_eq, Run.bind, Run.call, Run.pure_eq, hret,
    NewGovernanceCancelationMessage, NewGovernanceMaintenanceMessage]

/-- The `Event()` of every message built by `NewGovernanceCancelationMessage` carries the
id given to the constructor: the method reads the event of the embedded maintenance
message, not the embedded interface value. -/
theorem NewGovernanceCancelationMessage_Event (id : EventId) (cause : EndContractCause)
    (protocol agreementId : String) (deployment : Option Deployment) :
    (NewGovernanceCancelationMessage id cause protocol agreementId deployment).Event.Id = id ∧
    (NewGovernanceCancelationMessage id cause protocol agreementId deployment).Cause = cause :=
  ⟨rfl, rfl⟩

/-- C6 (evaluation at the failing inputs). (1) Scenario S4 as written, with no record of
agreement a4 in the database: `NewEvent` enqueues the one command (p, a4, 203, D), but
processing it panics inside `cancelAgreement` on `establishedAgreements[0]`, after the
lookup, and no `GovernanceCancelation` message is published. (2) The same happens for an
agreement that is in the database when the first registry DELETE fails with a transport
error: processing panics in the log line `err.Error()` and publishes nothing. -/
theorem container_failure_without_publication (fuel : Nat) :
    (NewEvent sampleWorker
        (.ContainerMessage (NewContainerMessage EXECUTION_FAILED "p" "a4" (some sampleDeployment))) =
      { trace :=
          [.sendCommand (.CleanupExecutionCommand
            { AgreementProtocol := "p", AgreementId := "a4", Reason := 203,
              Deployment := some sampleDeployment })],
        outcome := .returned () } ∧
    processCommand sampleWorker absentRecordEnv (fuel + 1)
        (.CleanupExecutionCommand
          { AgreementProtocol := "p", AgreementId := "a4", Reason := 203,
            Deployment := some sampleDeployment }) =
      { trace :=
          [ .AgreementStateTerminated "a4" "p",
            .InvokeExchange "DELETE" "https://exchange/v1/devices/dev/agreements/a4?token=tok" none,
            .FindEstablishedAgreements "p" [.IdEAFilter "a4"] ],
        outcome := .panicked "index out of range" }) ∧
    (NewEvent sampleWorker
        (.ContainerMessage
          (NewContainerMessage EXECUTION_FAILED "Citizen Scientist" "a2" (some sampleDeployment))) =
      { trace :=
          [.sendCommand (.CleanupExecutionCommand
            { AgreementProtocol := "Citizen Scientist", AgreementId := "a2", Reason := 203,
              Deployment := some sampleDeployment })],
        outcome := .returned () } ∧
    processCommand sampleWorker transportErrorEnv (fuel + 1)
        (.CleanupExecutionCommand
          { AgreementProtocol := "Citizen Scientist", AgreementId := "a2", Reason := 203,
            Deployment := some sampleDeployment }) =
      { trace :=
          [ .AgreementStateTerminated "a2" "Citizen Scientist",
            .InvokeExchange "DELETE" "https://exchange/v1/devices/dev/agreements/a2?token=tok" none ],
        outcome := .panicked "invalid memory address or nil pointer dereference" }) := by
  refine ⟨⟨by decide, rfl⟩, ⟨by decide, rfl⟩⟩

/-- C7. For every `TorrentMessage` with event id TORRENT_FAILURE that carries a launch
context, whatever its image files, `NewEvent` enqueues exactly one `CleanupExecutionCommand`
with the protocol and agreement id of the launch context, reason 202 and a nil
deployment. -/
theorem NewEvent_torrent_failure (w : GovernanceWorker) (imageFiles : List String)
    (lc : AgreementLaunchContext) :
    NewEvent w (.TorrentMessage
        { event := { Id := TORRENT_FAILURE }, ImageFiles := imageFiles,
          AgreementLaunchContext := some lc }) =
      { trace :=
          [.sendCommand (.CleanupExecutionCommand
            { AgreementProtocol := lc.AgreementProtocol, AgreementId := lc.AgreementId,
              Reason := 202, Deployment := none })],
        outcome := .returned () } := by
  simp [NewEvent, TorrentMessage.Event, Run.call, NewCleanupExecutionCommand,
    CANCEL_TORRENT_FAILURE]

/-- C8. For every `ApiAgreementCancelationMessage` with event id AGREEMENT_ENDED carrying
protocol p, agreement id a and deployment D, whatever its cause, `NewEvent` enqueues exactly
one `CleanupExecutionCommand` (p, a, 205, D). -/
theorem NewEvent_api_cancelation (w : GovernanceWorker) (cause : EndContractCause)
    (p a : String) (D : Option Deployment) :
    NewEvent w (.ApiAgreementCancelationMessage
        { event := { Id := AGREEMENT_ENDED }, AgreementProtocol := p, AgreementId := a,
          Deployment := D, Cause := cause }) =
      { trace :=
          [.sendCommand (.CleanupExecutionCommand
            { AgreementProtocol := p, AgreementId := a, Reason := 205, Deployment := D })],
        outcome := .returned () } := by
  simp [NewEvent, ApiAgreementCancelationMessage.Event, Run.call, NewCleanupExecutionCommand,
    CANCEL_USER_REQUESTED]

/-- C9. For every `EdgeRegisteredExchangeMessage` with id i and token t (whatever its event
id), `NewEvent` enqueues exactly `DeviceRegisteredCommand` (Id i, Token t); for every
`ContainerMessage` with event id EXECUTION_BEGUN carrying protocol p, agreement id a and
deployment D, it enqueues exactly `StartGovernExecutionCommand` (AgreementProtocol p,
AgreementId a, Deployment D). -/
theorem NewEvent_field_for_field (w : GovernanceWorker) :
    (∀ (ev : Event) (i t : String),
      NewEvent w (.EdgeRegisteredExchangeMessage { event := ev, id := i, token := t }) =
        { trace := [.sendCommand (.DeviceRegisteredCommand { Id := i, Token := t })],
          outcome := .returned () }) ∧
    (∀ (p a : String) (D : Option Deployment),
      NewEvent w (.ContainerMessage
          { event := { Id := EXECUTION_BEGUN }, AgreementProtocol := p, AgreementId := a,
            Deployment := D }) =
        { trace :=
            [.sendCommand (.StartGovernExecutionCommand
              { AgreementId := a, AgreementProtocol := p, Deployment := D })],
          outcome := .returned () }) := by
  constructor
  · intro ev i t
    rfl
  · intro p a D
    simp [NewEvent, ContainerMessage.Event, Run.call, NewStartGovernExecutionCommand]

/-- C10. For every bus message, `NewEvent` sends at most one command and performs no other
effect; and it performs no effect at all for a `ContainerMessage` whose event id is neither
EXECUTION_BEGUN nor EXECUTION_FAILED, a `TorrentMessage` whose event id is not
TORRENT_FAILURE, an `ApiAgreementCancelationMessage` whose event id is not AGREEMENT_ENDED,
and a message of any type other than these three and `EdgeRegisteredExchangeMessage`. -/
theorem NewEvent_zero_or_one (w : GovernanceWorker) (incoming : Message) :
    (NewEvent w incoming).trace.length ≤ 1 ∧
    (∀ e ∈ (NewEvent w incoming).trace, ∃ c, e = .sendCommand c) ∧
    (match incoming with
      | .EdgeRegisteredExchangeMessage _ => True
      | .ContainerMessage msg =>
          msg.Event.Id ≠ EXECUTION_BEGUN → msg.Event.Id ≠ EXECUTION_FAILED →
            NewEvent w incoming = { trace := [], outcome := .returned () }
      | .TorrentMessage msg =>
          msg.Event.Id ≠ TORRENT_FAILURE →
            NewEvent w incoming = { trace := [], outcome := .returned () }
      | .ApiAgreementCancelationMessage msg =>
          msg.Event.Id ≠ AGREEMENT_ENDED →
            NewEvent w incoming = { trace := [], outcome := .returned () }
      | _ => NewEvent w incoming = { trace := [], outcome := .returned () }) := by
  cases incoming with
  | EdgeRegisteredExchangeMessage msg => simp [NewEvent, Run.call]
  | ContainerMessage msg =>
      refine ⟨?_, ?_, ?_⟩
      · simp only [NewEvent, Run.call]
        split_ifs <;> simp [Run.pure_eq]
      · simp only [NewEvent, Run.call]
        split_ifs <;> simp [Run.pure_eq]
      · intro h1 h2
        simp [NewEvent, h1, h2, Run.pure_eq]
  | TorrentMessage msg =>
      refine ⟨?_, ?_, ?_⟩
      · simp only [NewEvent, Run.call]
        split_ifs
        · cases msg.AgreementLaunchContext <;> simp [Run.panic]
        · simp [Run.pure_eq]
      · simp only [NewEvent, Run.call]
        split_ifs
        · cases msg.AgreementLaunchContext <;> simp [Run.panic]
        · simp [Run.pure_eq]
      · intro h1
        simp [NewEvent, h1, Run.pure_eq]
  | ApiAgreementCancelationMessage msg =>
      refine ⟨?_, ?_, ?_⟩
      · simp only [NewEvent, Run.call]
        split_ifs <;> simp [Run.pure_eq]
      · simp only [NewEvent, Run.call]
        split_ifs <;> simp [Run.pure_eq]
      · intro h1
        simp [NewEvent, h1, Run.pure_eq]
  | _ => simp [NewEvent, Run.pure_eq]

/-- C10 (witness): a `ContainerMessage` with event id PATTERN_DESTROYED, a `TorrentMessage`
with event id TORRENT_FETCHED and a `GovernanceCancelationMessage` are ignored. -/
theorem NewEvent_zero_or_one_witness :
    NewEvent sampleWorker
        (.ContainerMessage (NewContainerMessage PATTERN_DESTROYED "p" "a" none)) =
      { trace := [], outcome := .returned () } ∧
    NewEvent sampleWorker (.TorrentMessage (NewTorrentMessage TORRENT_FETCHED ["image"] none)) =
      { trace := [], outcome := .returned () } ∧
    NewEvent sampleWorker
        (.GovernanceCancelationMessage
          (NewGovernanceCancelationMessage AGREEMENT_ENDED AG_TERMINATED "p" "a" none)) =
      { trace := [], outcome := .returned () } :=
  ⟨(NewEvent_zero_or_one sampleWorker
      (.ContainerMessage (NewContainerMessage PATTERN_DESTROYED "p" "a" none))).2.2
      (by decide) (by decide),
    (NewEvent_zero_or_one sampleWorker
      (.TorrentMessage (NewTorrentMessage TORRENT_FETCHED ["image"] none))).2.2 (by decide),
    (NewEvent_zero_or_one sampleWorker
      (.GovernanceCancelationMessage
        (NewGovernanceCancelationMessage AGREEMENT_ENDED AG_TERMINATED "p" "a" none))).2.2⟩

/-! ## The active filter -/

/-- C11. The filter of the reconciler accepts a record if and only if its creation time and
its accepted time are not 0, its terminated time is 0 and its counterparty address is not
empty; in particular it rejects every record whose terminated time is not 0, whatever the
other fields are. -/
theorem notYetFinalFilter_iff (a : EstablishedAgreement) :
    (notYetFinalFilter a = true ↔
      a.AgreementCreationTime ≠ 0 ∧ a.AgreementAcceptedTime ≠ 0 ∧ a.AgreementTerminated = 0 ∧
        a.CounterPartyAddress ≠ "") ∧
    (a.AgreementTerminated ≠ 0 → notYetFinalFilter a = false) := by
  constructor
  · simp [notYetFinalFilter, and_assoc]
  · intro h
    simp [notYetFinalFilter, h]

/-- C11 (witness): `agreementS2` with a terminated time of 1700000000 is rejected. -/
theorem notYetFinalFilter_iff_witness :
    ({ agreementS2 with AgreementTerminated := 1700000000 } : EstablishedAgreement).AgreementTerminated
      ≠ 0 ∧
    notYetFinalFilter { agreementS2 with AgreementTerminated := 1700000000 } = false :=
  ⟨by decide,
    (notYetFinalFilter_iff { agreementS2 with AgreementTerminated := 1700000000 }).2 (by decide)⟩

/-! ## The registry calls -/

/-- C13 (evaluation at the failing input): scenario S6. The registry answers the first two
calls with a transport error and the third with success. Both functions make one call, not
three, and do not return: the branch `tpErr != nil` evaluates `err.Error()` with the nil
`err` and panics before the sleep. -/
theorem registry_transport_error_panics (fuel : Nat) :
    (transportErrorEnv.InvokeExchange "DELETE"
        "https://exchange/v1/devices/dev/agreements/a2?token=tok" 0
        = (none, some { msg := "network" }) ∧
      transportErrorEnv.InvokeExchange "DELETE"
        "https://exchange/v1/devices/dev/agreements/a2?token=tok" 1
        = (none, some { msg := "network" }) ∧
      transportErrorEnv.InvokeExchange "DELETE"
        "https://exchange/v1/devices/dev/agreements/a2?token=tok" 2 = (none, none)) ∧
    deleteProducerAgreement transportErrorEnv (fuel + 1) "https://exchange/v1/" "dev" "tok" "a2" =
      { trace :=
          [.InvokeExchange "DELETE" "https://exchange/v1/devices/dev/agreements/a2?token=tok" none],
        outcome := .panicked "invalid memory address or nil pointer dereference" } ∧
    recordProducerAgreementState transportErrorEnv (fuel + 1) "https://exchange/v1/" "dev" "tok"
        "a1" "svc/x" "Finalized Agreement" =
      { trace :=
          [.InvokeExchange "PUT" "https://exchange/v1/devices/dev/agreements/a1?token=tok"
            (some { Microservice := "svc/x", State := "Finalized Agreement" })],
        outcome := .panicked "invalid memory address or nil pointer dereference" } := by
  refine ⟨⟨rfl, rfl, rfl⟩, rfl, rfl⟩

/-- The parts of the retry contract that the code keeps: a first call that succeeds is the
only call and nil is returned; a call that fails with a response-level error is the last
call and that error is returned. -/
theorem deleteProducerAgreement_first_answer (env : Env) (fuel : Nat)
    (url deviceId token agreementId : String) :
    (env.InvokeExchange "DELETE"
        (url ++ "devices/" ++ deviceId ++ "/agreements/" ++ agreementId ++ "?token=" ++ token) 0
        = (none, none) →
      deleteProducerAgreement env (fuel + 1) url deviceId token agreementId =
        { trace := [.InvokeExchange "DELETE"
            (url ++ "devices/" ++ deviceId ++ "/agreements/" ++ agreementId ++ "?token=" ++ token)
            none],
          outcome := .returned none }) ∧
    (∀ e tp, env.InvokeExchange "DELETE"
        (url ++ "devices/" ++ deviceId ++ "/agreements/" ++ agreementId ++ "?token=" ++ token) 0
        = (some e, tp) →
      deleteProducerAgreement env (fuel + 1) url deviceId token agreementId =
        { trace := [.InvokeExchange "DELETE"
            (url ++ "devices/" ++ deviceId ++ "/agreements/" ++ agreementId ++ "?token=" ++ token)
            none],
          outcome := .returned (some e) }) := by
  unfold deleteProducerAgreement
  simp only [deleteProducerAgreementLoop_succ]
  constructor
  · intro h
    rw [h]
  · intro e tp h
    rw [h]

/-- Every first answer that is a pure transport error ends both registry functions in the
panic of the log line, after exactly one call: no number of failed attempts is retried. -/
theorem registry_first_transport_error (env : Env) (fuel : Nat)
    (url deviceId token agreementId microservice state : String) (tp : GoError) :
    (env.InvokeExchange "DELETE"
        (url ++ "devices/" ++ deviceId ++ "/agreements/" ++ agreementId ++ "?token=" ++ token) 0
        = (none, some tp) →
      deleteProducerAgreement env (fuel + 1) url deviceId token agreementId =
        { trace := [.InvokeExchange "DELETE"
            (url ++ "devices/" ++ deviceId ++ "/agreements/" ++ agreementId ++ "?token=" ++ token)
            none],
          outcome := .panicked "invalid memory address or nil pointer dereference" }) ∧
    (env.InvokeExchange "PUT"
        (url ++ "devices/" ++ deviceId ++ "/agreements/" ++ agreementId ++ "?token=" ++ token) 0
        = (none, some tp) →
      recordProducerAgreementState env (fuel + 1) url deviceId token agreementId microservice
          state =
        { trace := [.InvokeExchange "PUT"
            (url ++ "devices/" ++ deviceId ++ "/agreements/" ++ agreementId ++ "?token=" ++ token)
            (some { Microservice := microservice, State := state })],
          outcome := .panicked "invalid memory address or nil pointer dereference" }) := by
  constructor
  · intro h
    unfold deleteProducerAgreement
    simp only [deleteProducerAgreementLoop_succ]
    rw [h]
  · intro h
    unfold recordProducerAgreementState
    simp only [recordProducerAgreementStateLoop_succ]
    rw [h]

/-! ## The lookup of the counterparty -/

/-- C14 (the code at the inputs of the claim). Whenever the lookup by `IdEAFilter` returns
an empty list without error (and the registry DELETE before it did not end in a panic),
`cancelAgreement` stops after the lookup with the panic "index out of range":
`TerminateAgreement` is not called, with the empty string or otherwise, and the final
deletion is not attempted. -/
theorem cancelAgreement_empty_lookup (w : GovernanceWorker) (env : Env) (fuel : Nat)
    (agreementId agreementProtocol : String) (reason : Nat)
    (hreg : (env.InvokeExchange "DELETE"
        (w.Config.Edge.ExchangeURL ++ "devices/" ++ w.deviceId ++ "/agreements/" ++ agreementId
          ++ "?token=" ++ w.deviceToken) 0).1 ≠ none ∨
      (env.InvokeExchange "DELETE"
        (w.Config.Edge.ExchangeURL ++ "devices/" ++ w.deviceId ++ "/agreements/" ++ agreementId
          ++ "?token=" ++ w.deviceToken) 0).2 = none)
    (hfind : env.FindEstablishedAgreements agreementProtocol [.IdEAFilter agreementId] = .ok []) :
    cancelAgreement w env (fuel + 1) agreementId agreementProtocol reason =
      { trace :=
          [ .AgreementStateTerminated agreementId agreementProtocol,
            .InvokeExchange "DELETE"
              (w.Config.Edge.ExchangeURL ++ "devices/" ++ w.deviceId ++ "/agreements/"
                ++ agreementId ++ "?token=" ++ w.deviceToken) none,
            .FindEstablishedAgreements agreementProtocol [.IdEAFilter agreementId] ],
        outcome := .panicked "index out of range" } := by
  obtain ⟨err, hdel⟩ := deleteProducerAgreement_returns env fuel w.Config.Edge.ExchangeURL
    w.deviceId w.deviceToken agreementId hreg
  simp [cancelAgreement, hdel, hfind, index0, Run.bind_eq, Run.bind, Run.call, Run.pure_eq,
    Run.panic]

/-- C14 (witness): user cancellation (reason 205) of an agreement "a0" of which the database
holds no record. -/
theorem cancelAgreement_empty_lookup_witness :
    absentRecordEnv.FindEstablishedAgreements "Citizen Scientist" [.IdEAFilter "a0"] = .ok [] ∧
    cancelAgreement sampleWorker absentRecordEnv 1 "a0" "Citizen Scientist" CANCEL_USER_REQUESTED =
      { trace :=
          [ .AgreementStateTerminated "a0" "Citizen Scientist",
            .InvokeExchange "DELETE" "https://exchange/v1/devices/dev/agreements/a0?token=tok" none,
            .FindEstablishedAgreements "Citizen Scientist" [.IdEAFilter "a0"] ],
        outcome := .panicked "index out of range" } :=
  ⟨rfl,
    cancelAgreement_empty_lookup sampleWorker absentRecordEnv 0 "a0" "Citizen Scientist"
      CANCEL_USER_REQUESTED (Or.inr rfl) rfl⟩

/-! ## One-shot termination -/

/-- Sequencing adds at most the publications of the second part to those of the first. -/
theorem cancelationsFor_bind_le {α β : Type} (p a : String) (r : Run α) (f : α → Run β) (k : Nat)
    (h : ∀ x, cancelationsFor p a (f x).trace ≤ k) :
    cancelationsFor p a (Run.bind r f).trace ≤ cancelationsFor p a r.trace + k := by
  unfold Run.bind
  cases hr : r.outcome with
  | returned x =>
    simp only [cancelationsFor, List.countP_append]
    exact Nat.add_le_add_left (h x) _
  | panicked reason => exact Nat.le_add_right _ _
  | outOfFuel => exact Nat.le_add_right _ _

/-- The registry DELETE publishes nothing. -/
theorem cancelationsFor_deleteProducerAgreement (p a : String) (env : Env) (fuel : Nat)
    (url deviceId token agreementId : String) :
    cancelationsFor p a (deleteProducerAgreement env fuel url deviceId token agreementId).trace
      = 0 := by
  unfold deleteProducerAgreement
  cases fuel with
  | zero => rfl
  | succ n =>
    simp only [deleteProducerAgreementLoop_succ]
    split <;> rfl

/-- The registry PUT publishes nothing. -/
theorem cancelationsFor_recordProducerAgreementState (p a : String) (env : Env) (fuel : Nat)
    (url deviceId token agreementId microservice state : String) :
    cancelationsFor p a (recordProducerAgreementState env fuel url deviceId token agreementId
      microservice state).trace = 0 := by
  unfold recordProducerAgreementState
  cases fuel with
  | zero => rfl
  | succ n =>
    simp only [recordProducerAgreementStateLoop_succ]
    split <;> rfl

/-- The cancellation pipeline itself publishes nothing: the message is sent by its callers. -/
theorem cancelationsFor_cancelAgreement (p a : String) (w : GovernanceWorker) (env : Env)
    (fuel : Nat) (agreementId agreementProtocol : String) (reason : Nat) :
    cancelationsFor p a (cancelAgreement w env fuel agreementId agreementProtocol reason).trace
      = 0 := by
  have hdel := cancelationsFor_deleteProducerAgreement p a env fuel w.Config.Edge.ExchangeURL
    w.deviceId w.deviceToken agreementId
  unfold cancelAgreement
  generalize deleteProducerAgreement env fuel w.Config.Edge.ExchangeURL w.deviceId w.deviceToken
    agreementId = d at hdel ⊢
  rcases d with ⟨dt, dout⟩
  simp only [cancelationsFor] at hdel
  cases dout <;>
    rcases hf : env.FindEstablishedAgreements agreementProtocol [.IdEAFilter agreementId]
      with e | (_ | ⟨first, rest⟩) <;>
    rcases hbc : w.bc with _ | bc <;>
    simp [cancelationsFor, GovernanceWorker.bcAgreements, index0, Run.bind_eq, Run.bind,
      Run.call, Run.pure_eq, Run.panic, List.countP_cons, List.countP_append, isCancelationFor,
      hdel, hf, hbc]

/-- One command publishes at most one cancelation, and only a `CleanupExecutionCommand` for
the agreement does. -/
theorem cancelationsFor_processCommand (p a : String) (w : GovernanceWorker) (env : Env)
    (fuel : Nat) (command : Command) :
    cancelationsFor p a (processCommand w env fuel command).trace
      ≤ (if isCleanupFor p a command then 1 else 0) := by
  cases command with
  | DeviceRegisteredCommand cmd => simp [processCommand, Run.pure_eq, cancelationsFor]
  | StartGovernExecutionCommand cmd =>
    simp [processCommand, Run.bind_eq, Run.bind, Run.call, Run.pure_eq, cancelationsFor,
      isCancelationFor]
  | CleanupExecutionCommand cmd =>
    simp only [processCommand, Run.bind_eq]
    refine le_trans (cancelationsFor_bind_le p a _ _
      (if isCleanupFor p a (.CleanupExecutionCommand cmd) then 1 else 0) ?_) ?_
    · intro _
      by_cases hk : isCleanupFor p a (.CleanupExecutionCommand cmd) = true
      · rw [if_pos hk]
        simp only [cancelationsFor, Run.bind, Run.call, Run.pure_eq, List.append_nil]
        exact List.countP_le_length _
      · rw [if_neg hk]
        simp only [isCleanupFor, Bool.and_eq_true, beq_iff_eq] at hk
        simp [cancelationsFor, Run.bind, Run.call, Run.pure_eq, isCancelationFor,
          NewGovernanceCancelationMessage, NewGovernanceMaintenanceMessage]
        intro _ h1 h2
        exact hk ⟨h1, h2⟩
    · rw [cancelationsFor_cancelAgreement]
      simp

/-- Sequencing after a part that publishes no cancelation. -/
theorem cancelationsFor_bind_zero {α β : Type} (p a : String) (r : Run α) (f : α → Run β)
    (k : Nat) (hr : cancelationsFor p a r.trace = 0)
    (h : ∀ x, cancelationsFor p a (f x).trace ≤ k) :
    cancelationsFor p a (Run.bind r f).trace ≤ k := by
  have := cancelationsFor_bind_le p a r f k h
  omega

/-- The pipeline followed by the publication: one message, for the agreement cancelled. -/
theorem cancelationsFor_cancel_then_publish (p a : String) (w : GovernanceWorker) (env : Env)
    (fuel : Nat) (agreementId agreementProtocol : String) (reason : Nat)
    (deployment : Option Deployment) :
    cancelationsFor p a
      (Run.bind (cancelAgreement w env fuel agreementId agreementProtocol reason) fun _ =>
        Run.call (.sendMessage (.GovernanceCancelationMessage
          (NewGovernanceCancelationMessage AGREEMENT_ENDED AG_TERMINATED agreementProtocol
            agreementId deployment))) ()).trace
      ≤ (if (agreementProtocol == p && agreementId == a) = true then 1 else 0) := by
  refine cancelationsFor_bind_zero p a _ _ _ (cancelationsFor_cancelAgreement ..) ?_
  intro _
  by_cases hk : (agreementProtocol == p && agreementId == a) = true
  · rw [if_pos hk]
    exact List.countP_le_length _
  · rw [if_neg hk]
    simp only [Bool.and_eq_true, beq_iff_eq] at hk
    simp [cancelationsFor, Run.call, isCancelationFor, NewGovernanceCancelationMessage,
      NewGovernanceMaintenanceMessage]
    intro _ h1 h2
    exact hk ⟨h1, h2⟩

/-- One record handled by a pass publishes at most one cancelation, and only for its own
agreement. -/
theorem cancelationsFor_governAgreement (p a : String) (w : GovernanceWorker) (env : Env)
    (fuel : Nat) (ag : EstablishedAgreement) :
    cancelationsFor p a (governAgreement w env fuel ag).trace
      ≤ (if isRecordOf p a ag = true then 1 else 0) := by
  have hpub200 := cancelationsFor_cancel_then_publish p a w env fuel ag.CurrentAgreementId
    ag.AgreementProtocol CANCEL_NOT_FINALIZED_TIMEOUT (some ag.CurrentDeployment)
  have hpub204 := cancelationsFor_cancel_then_publish p a w env fuel ag.CurrentAgreementId
    ag.AgreementProtocol CANCEL_NOT_EXECUTED_TIMEOUT (some ag.CurrentDeployment)
  unfold isRecordOf
  obtain ⟨k, hk⟩ : ∃ k : Nat,
      k = (if (ag.AgreementProtocol == p && ag.CurrentAgreementId == a) = true then 1 else 0) :=
    ⟨_, rfl⟩
  rw [← hk] at hpub200 hpub204 ⊢
  unfold governAgreement
  simp only [Run.bind_eq]
  by_cases hfin : ag.AgreementFinalizedTime = 0
  · rw [if_pos hfin]
    refine cancelationsFor_bind_zero p a _ _ _ ?_ ?_
    · unfold GovernanceWorker.bcAgreements
      split <;> rfl
    · intro agreements
      refine cancelationsFor_bind_zero p a _ _ _ rfl ?_
      rintro ⟨recorded, err⟩
      simp only
      by_cases herr : err ≠ none
      · rw [if_pos herr]
        exact Nat.zero_le _
      · rw [if_neg herr]
        by_cases hrec : recorded = true
        · rw [if_pos hrec]
          refine cancelationsFor_bind_zero p a _ _ _ rfl ?_
          intro _
          split
          · exact Nat.zero_le _
          · split
            · exact Nat.zero_le _
            · refine cancelationsFor_bind_zero p a _ _ _ ?_ ?_
              · unfold index0
                split <;> rfl
              · intro spec
                refine cancelationsFor_bind_zero p a _ _ _
                  (cancelationsFor_recordProducerAgreementState ..) ?_
                intro _
                exact Nat.zero_le _
        · rw [if_neg hrec]
          split
          · exact hpub200
          · exact Nat.zero_le _
  · rw [if_neg hfin]
    by_cases hexec : ag.AgreementExecutionStartTime ≠ 0
    · rw [if_pos hexec]
      exact Nat.zero_le _
    · rw [if_neg hexec]
      split
      · exact hpub204
      · exact Nat.zero_le _

/-- The command loop publishes at most one cancelation per `CleanupExecutionCommand` for the
agreement. -/
theorem cancelationsFor_processCommands (p a : String) (env : Env) (fuel : Nat)
    (commands : List Command) (w : GovernanceWorker) :
    cancelationsFor p a (processCommands w env fuel commands).trace
      ≤ commands.countP (isCleanupFor p a) := by
  induction commands generalizing w with
  | nil => exact Nat.zero_le _
  | cons command rest ih =>
    simp only [processCommands, Run.bind_eq, List.countP_cons]
    have h2 := cancelationsFor_processCommand p a w env fuel command
    refine le_trans (cancelationsFor_bind_le p a _ _ _ (fun w2 => ih w2)) ?_
    omega

/-- The `range` loop publishes at most one cancelation per record of the agreement. -/
theorem cancelationsFor_governEach (p a : String) (w : GovernanceWorker) (env : Env) (fuel : Nat)
    (ags : List EstablishedAgreement) :
    cancelationsFor p a (governEach w env fuel ags).trace ≤ ags.countP (isRecordOf p a) := by
  induction ags with
  | nil => exact Nat.zero_le _
  | cons ag rest ih =>
    simp only [governEach, Run.bind_eq, List.countP_cons]
    have h2 := cancelationsFor_governAgreement p a w env fuel ag
    refine le_trans (cancelationsFor_bind_le p a _ _ _ (fun _ => ih)) ?_
    omega

/-- One pass publishes at most one cancelation per record of the agreement that the active
filter returns. -/
theorem cancelationsFor_governAgreementsPass (p a : String) (w : GovernanceWorker) (env : Env)
    (fuel : Nat) :
    cancelationsFor p a (governAgreementsPass w env fuel).trace ≤
      (match env.FindEstablishedAgreements env.PROTOCOL_NAME [.notYetFinalFilter] with
        | .ok ags => ags.countP (isRecordOf p a)
        | .error _ => 0) := by
  unfold governAgreementsPass
  simp only [Run.bind_eq, Run.bind_call]
  rcases env.FindEstablishedAgreements env.PROTOCOL_NAME [.notYetFinalFilter] with e | ags
  · exact Nat.zero_le _
  · have h := cancelationsFor_governEach p a w env fuel ags
    have hb := cancelationsFor_bind_le p a (governEach w env fuel ags)
      (fun _ => Run.call (.Sleep 10) ()) 0 (fun _ => Nat.le_refl 0)
    simp only [cancelationsFor, List.countP_cons, isCancelationFor, Bool.false_eq_true,
      if_false] at h hb ⊢
    omega

/-- The event handler publishes nothing. -/
theorem cancelationsFor_NewEvent (p a : String) (w : GovernanceWorker) (incoming : Message) :
    cancelationsFor p a (NewEvent w incoming).trace = 0 := by
  cases incoming with
  | EdgeRegisteredExchangeMessage msg => rfl
  | ContainerMessage msg =>
    simp only [NewEvent]
    split_ifs <;> rfl
  | TorrentMessage msg =>
    simp only [NewEvent]
    split_ifs
    · cases msg.AgreementLaunchContext <;> rfl
    · rfl
  | ApiAgreementCancelationMessage msg =>
    simp only [NewEvent]
    split_ifs <;> rfl
  | _ => rfl

/-- Several passes publish at most one cancelation per pass and record of the agreement. -/
theorem cancelationsFor_governAgreementsLoop (p a : String) (w : GovernanceWorker) (env : Env)
    (fuel : Nat) (passes : Nat) :
    cancelationsFor p a (governAgreementsLoop w env fuel passes).trace ≤
      passes *
        (match env.FindEstablishedAgreements env.PROTOCOL_NAME [.notYetFinalFilter] with
          | .ok ags => ags.countP (isRecordOf p a)
          | .error _ => 0) := by
  induction passes with
  | zero => exact Nat.zero_le _
  | succ n ih =>
    have h2 := cancelationsFor_governAgreementsPass p a w env fuel
    simp only [governAgreementsLoop, Run.bind_eq]
    refine le_trans (cancelationsFor_bind_le p a _ _ _ (fun _ => ih)) ?_
    rw [Nat.succ_mul]
    omega

/-- C12 (counterexample). With a database that rejects writes (marking terminated and
deleting return errors, which the worker only logs), the record of agreement a2 stays in
place and active. (1) Two `ContainerMessage`s with event id EXECUTION_FAILED for a2 give two
`CleanupExecutionCommand`s, and the command loop publishes two `GovernanceCancelation`
messages with event id AGREEMENT_ENDED for a2. (2) Two reconciler passes publish two such
messages for a2 as well. -/
theorem duplicate_cancelation_counterexample :
    NewEvent sampleWorker
        (.ContainerMessage
          (NewContainerMessage EXECUTION_FAILED "Citizen Scientist" "a2" (some sampleDeployment))) =
      { trace :=
          [.sendCommand (.CleanupExecutionCommand
            { AgreementProtocol := "Citizen Scientist", AgreementId := "a2", Reason := 203,
              Deployment := some sampleDeployment })],
        outcome := .returned () } ∧
    processCommands sampleWorker writeFailureEnv 1
        [ .CleanupExecutionCommand
            { AgreementProtocol := "Citizen Scientist", AgreementId := "a2", Reason := 203,
              Deployment := some sampleDeployment },
          .CleanupExecutionCommand
            { AgreementProtocol := "Citizen Scientist", AgreementId := "a2", Reason := 203,
              Deployment := some sampleDeployment } ] =
      { trace :=
          [ .AgreementStateTerminated "a2" "Citizen Scientist",
            .InvokeExchange "DELETE" "https://exchange/v1/devices/dev/agreements/a2?token=tok" none,
            .FindEstablishedAgreements "Citizen Scientist" [.IdEAFilter "a2"],
            .TerminateAgreement "0xBB" "a2" 203 "0xC0",
            .DeleteEstablishedAgreement "a2" "Citizen Scientist",
            .sendMessage (.GovernanceCancelationMessage
              { GovernanceMaintenanceMessage :=
                  { event := { Id := "AGREEMENT_ENDED" },
                    AgreementProtocol := "Citizen Scientist", AgreementId := "a2",
                    Deployment := some [("svc", "cfg")] },
                Message := none, Cause := "AG_TERMINATED" }),
            .AgreementStateTerminated "a2" "Citizen Scientist",
            .InvokeExchange "DELETE" "https://exchange/v1/devices/dev/agreements/a2?token=tok" none,
            .FindEstablishedAgreements "Citizen Scientist" [.IdEAFilter "a2"],
            .TerminateAgreement "0xBB" "a2" 203 "0xC0",
            .DeleteEstablishedAgreement "a2" "Citizen Scientist",
            .sendMessage (.GovernanceCancelationMessage
              { GovernanceMaintenanceMessage :=
                  { event := { Id := "AGREEMENT_ENDED" },
                    AgreementProtocol := "Citizen Scientist", AgreementId := "a2",
                    Deployment := some [("svc", "cfg")] },
                Message := none, Cause := "AG_TERMINATED" }) ],
        outcome := .returned sampleWorker } ∧
    cancelationsFor "Citizen Scientist" "a2"
      (processCommands sampleWorker writeFailureEnv 1
        [ .CleanupExecutionCommand
            { AgreementProtocol := "Citizen Scientist", AgreementId := "a2", Reason := 203,
              Deployment := some sampleDeployment },
          .CleanupExecutionCommand
            { AgreementProtocol := "Citizen Scientist", AgreementId := "a2", Reason := 203,
              Deployment := some sampleDeployment } ]).trace = 2 ∧
    cancelationsFor "Citizen Scientist" "a2"
      (governAgreementsLoop sampleWorker writeFailureEnv 1 2).trace = 2 := by
  refine ⟨by decide, by decide, by decide, by decide⟩

/-- C12 (amended). For every protocol and agreement id, the worker publishes at most one
`GovernanceCancelation` message with event id AGREEMENT_ENDED per cancellation it starts:
`NewEvent` publishes none; the command loop publishes at most as many as it handles
`CleanupExecutionCommand`s for that agreement; and any number of reconciler passes publish
at most one per pass and record of that agreement returned by the active filter. -/
theorem cancelations_at_most_one_per_cancellation (p a : String) (w : GovernanceWorker)
    (env : Env) (fuel : Nat) :
    (∀ incoming : Message, cancelationsFor p a (NewEvent w incoming).trace = 0) ∧
    (∀ commands : List Command,
      cancelationsFor p a (processCommands w env fuel commands).trace
        ≤ commands.countP (isCleanupFor p a)) ∧
    (∀ passes : Nat,
      cancelationsFor p a (governAgreementsLoop w env fuel passes).trace ≤
        passes *
          (match env.FindEstablishedAgreements env.PROTOCOL_NAME [.notYetFinalFilter] with
            | .ok ags => ags.countP (isRecordOf p a)
            | .error _ => 0)) :=
  ⟨fun incoming => cancelationsFor_NewEvent p a w incoming,
    fun commands => cancelationsFor_processCommands p a env fuel commands w,
    fun passes => cancelationsFor_governAgreementsLoop p a w env fuel passes⟩

/-! ## Decode errors after finalization -/

/-- C15 (counterexample). For an active, not finalized record that the ledger reports as
recorded and whose proposal cannot be parsed, the pass has called `AgreementStateFinalized`
before it tried to parse, and that call succeeded. The record as persisted by this call has a
finalized time that is not 0, and the next pass handles it in the branch for finalized
records: it does not verify it again and does not reattempt the registry update. -/
theorem decode_error_counterexample :
    notYetFinalFilter agreementFresh = true ∧
    agreementFresh.AgreementFinalizedTime = 0 ∧
    undecodableEnv.VerifyAgreementRecorded "a10" "0xEE" "sig" "0xC0" = (true, none) ∧
    undecodableEnv.ValidateProposal agreementFresh.Proposal
      = .error { msg := "malformed proposal" } ∧
    governAgreement sampleWorker undecodableEnv 1 agreementFresh =
      { trace :=
          [ .VerifyAgreementRecorded "a10" "0xEE" "sig" "0xC0",
            .AgreementStateFinalized "a10" "Citizen Scientist" ],
        outcome := .returned () } ∧
    undecodableEnv.AgreementStateFinalized "a10" "Citizen Scientist" = none ∧
    (AgreementStateFinalizedRecord 1700000000 agreementFresh).AgreementFinalizedTime ≠ 0 ∧
    governAgreement sampleWorker undecodableEnv 1
        (AgreementStateFinalizedRecord 1700000000 agreementFresh) =
      { trace := [], outcome := .returned () } := by
  refine ⟨by decide, by decide, by decide, rfl, by decide, by decide, by decide, by decide⟩

/-- C15 (amended). In a reconciler pass, for every record with `AgreementFinalizedTime = 0`
that the ledger reports as recorded, if `ValidateProposal` fails or `DemarshalPolicy` fails,
the pass performs exactly two steps: the ledger verification and `AgreementStateFinalized`
for the record, which precedes the decoding. It issues no registry PUT, runs no cancellation
and publishes no message. -/
theorem governAgreement_decode_error (w : GovernanceWorker) (env : Env) (fuel : Nat)
    (ag : EstablishedAgreement) (bc : BaseContracts)
    (hbc : w.bc = some bc)
    (hfin : ag.AgreementFinalizedTime = 0)
    (hver : env.VerifyAgreementRecorded ag.CurrentAgreementId ag.CounterPartyAddress
      ag.ProposalSig bc.Agreements = (true, none))
    (hdecode : (∃ e, env.ValidateProposal ag.Proposal = .error e) ∨
      (∃ proposal e, env.ValidateProposal ag.Proposal = .ok proposal ∧
        env.DemarshalPolicy proposal.TsAndCs = .error e)) :
    governAgreement w env fuel ag =
      { trace :=
          [ .VerifyAgreementRecorded ag.CurrentAgreementId ag.CounterPartyAddress ag.ProposalSig
              bc.Agreements,
            .AgreementStateFinalized ag.CurrentAgreementId env.PROTOCOL_NAME ],
        outcome := .returned () } := by
  unfold governAgreement
  rcases hdecode with ⟨e, he⟩ | ⟨proposal, e, hp, hd⟩
  · simp [hfin, hbc, GovernanceWorker.bcAgreements, hver, he, Run.bind_eq, Run.bind, Run.call,
      Run.pure_eq]
  · simp [hfin, hbc, GovernanceWorker.bcAgreements, hver, hp, hd, Run.bind_eq, Run.bind,
      Run.call, Run.pure_eq]

/-- C15 (witness): the pass over `agreementFresh` when its proposal cannot be parsed. -/
theorem governAgreement_decode_error_witness :
    sampleWorker.bc = some { Agreements := "0xC0" } ∧
    agreementFresh.AgreementFinalizedTime = 0 ∧
    governAgreement sampleWorker undecodableEnv 1 agreementFresh =
      { trace :=
          [ .VerifyAgreementRecorded "a10" "0xEE" "sig" "0xC0",
            .AgreementStateFinalized "a10" "Citizen Scientist" ],
        outcome := .returned () } :=
  ⟨rfl, rfl,
    governAgreement_decode_error sampleWorker undecodableEnv 1 agreementFresh
      { Agreements := "0xC0" } rfl rfl rfl (Or.inl ⟨{ msg := "malformed proposal" }, rfl⟩)⟩

/-! ## The deployment configuration plugin for Kubernetes operators -/

/-- A Go string has length 0 exactly when it is the empty string. -/
theorem String.length_zero_iff_empty (s : String) : s.length = 0 ↔ s = "" := by
  rcases s with ⟨cs⟩
  cases cs with
  | nil => exact ⟨fun _ => rfl, fun _ => rfl⟩
  | cons c rest =>
    constructor
    · intro h
      simp [String.length] at h
    · intro h
      exact absurd (congrArg String.data h) (by simp)

/-- C16. `Validate` returns (false, nil) exactly when its input is not a
`map[string]interface{}` or is such a map without the key "operatorYamlArchive". For a map
with that key it returns owned = true, with an error exactly when the value under the key is
not a string or is the empty string. The value returned by `DefaultConfig` is therefore
owned and rejected with an error. -/
theorem Validate_owned_and_error :
    (∀ dep : GoValue,
      KubeDeploymentConfigPlugin.Validate dep = (false, none) ↔
        ((∀ dc, dep ≠ .map dc) ∨
          ∃ dc, dep = .map dc ∧ dc.lookup "operatorYamlArchive" = none)) ∧
    (∀ (dc : List (String × GoValue)) (c : GoValue),
      dc.lookup "operatorYamlArchive" = some c →
        (KubeDeploymentConfigPlugin.Validate (.map dc)).1 = true ∧
        ((KubeDeploymentConfigPlugin.Validate (.map dc)).2 ≠ none ↔
          ((∀ s, c ≠ .string s) ∨ c = .string ""))) ∧
    (∀ imageInfo : GoValue,
      (KubeDeploymentConfigPlugin.Validate
        (KubeDeploymentConfigPlugin.DefaultConfig imageInfo)).1 = true ∧
      (KubeDeploymentConfigPlugin.Validate
        (KubeDeploymentConfigPlugin.DefaultConfig imageInfo)).2 ≠ none) := by
  have hown : ∀ (dc : List (String × GoValue)) (c : GoValue),
      dc.lookup "operatorYamlArchive" = some c →
        (KubeDeploymentConfigPlugin.Validate (.map dc)).1 = true := by
    intro dc c h
    cases c with
    | string ca =>
      by_cases hlen : ca.length = 0 <;> simp [KubeDeploymentConfigPlugin.Validate, h, hlen]
    | nil => simp [KubeDeploymentConfigPlugin.Validate, h]
    | map entries => simp [KubeDeploymentConfigPlugin.Validate, h]
    | other typeName => simp [KubeDeploymentConfigPlugin.Validate, h]
  refine ⟨?_, ?_, ?_⟩
  · intro dep
    cases dep with
    | map dc =>
      rcases h : dc.lookup "operatorYamlArchive" with _ | c
      · have hv : KubeDeploymentConfigPlugin.Validate (.map dc) = (false, none) := by
          simp only [KubeDeploymentConfigPlugin.Validate, h]
        exact ⟨fun _ => Or.inr ⟨dc, rfl, h⟩, fun _ => hv⟩
      · have hv := hown dc c h
        constructor
        · intro heq
          rw [heq] at hv
          exact absurd hv (by decide)
        · rintro (hno | ⟨dc2, heq, hnone⟩)
          · exact absurd rfl (hno dc)
          · cases heq
            rw [h] at hnone
            exact absurd hnone (by simp)
    | nil =>
      exact ⟨fun _ => Or.inl (fun dc hh => by cases hh), fun _ => rfl⟩
    | string s =>
      exact ⟨fun _ => Or.inl (fun dc hh => by cases hh), fun _ => rfl⟩
    | other typeName =>
      exact ⟨fun _ => Or.inl (fun dc hh => by cases hh), fun _ => rfl⟩
  · intro dc c h
    cases c with
    | string ca =>
      by_cases hlen : ca.length = 0
      · have hca : ca = "" := (String.length_zero_iff_empty ca).mp hlen
        simp [KubeDeploymentConfigPlugin.Validate, h, hlen, hca]
      · have hca : ca ≠ "" := fun hh => hlen ((String.length_zero_iff_empty ca).mpr hh)
        simp [KubeDeploymentConfigPlugin.Validate, h, hlen, hca]
    | nil => simp [KubeDeploymentConfigPlugin.Validate, h]
    | map entries => simp [KubeDeploymentConfigPlugin.Validate, h]
    | other typeName => simp [KubeDeploymentConfigPlugin.Validate, h]
  · intro imageInfo
    constructor
    · rfl
    · simp [KubeDeploymentConfigPlugin.Validate, KubeDeploymentConfigPlugin.DefaultConfig,
        List.lookup]

/-- C16 (witness): a configuration that names an operator archive is owned and accepted. -/
theorem Validate_owned_and_error_witness :
    [("operatorYamlArchive", GoValue.string "operator.tar.gz")].lookup "operatorYamlArchive"
      = some (GoValue.string "operator.tar.gz") ∧
    KubeDeploymentConfigPlugin.Validate
      (.map [("operatorYamlArchive", .string "operator.tar.gz")]) = (true, none) ∧
    (KubeDeploymentConfigPlugin.Validate
        (.map [("operatorYamlArchive", .string "operator.tar.gz")])).1 = true ∧
    ((KubeDeploymentConfigPlugin.Validate
        (.map [("operatorYamlArchive", .string "operator.tar.gz")])).2 ≠ none ↔
      ((∀ s, GoValue.string "operator.tar.gz" ≠ .string s) ∨
        GoValue.string "operator.tar.gz" = .string "")) :=
  ⟨rfl, rfl,
    Validate_owned_and_error.2.1 [("operatorYamlArchive", .string "operator.tar.gz")]
      (.string "operator.tar.gz") rfl⟩

end Anax
